import Mathlib

/-!
Shallow embedding of the railway-monitoring signaling broker
(`src/state/sessions.state.js`, `src/state/kiosks.state.js`,
`src/state/monitors.state.js`, the rate limiter, the heartbeat store and
the Socket.IO controller in `src/socket/index.js`), together with proofs
of the specification claims about it.

Conventions of the embedding:
* JavaScript `Map`s become association lists (`List (key × value)`);
  JS `Map` iteration order is insertion order, `Map.set` on a fresh key
  appends, `Map.delete` removes the entry, which the list operations
  below mirror.
* `Date.now()` becomes an explicit `now : Nat` (epoch milliseconds)
  argument; `new Date().toISOString()` becomes an explicit `nowIso`
  string argument.
* JS arithmetic comparisons that may involve negative numbers
  (`timestamp > Date.now() - 60000`, `now - lastActivityAt > timeoutMs`)
  are computed over `Int`, matching JS number semantics on these values.
* Throwing code (`createSession`) returns `Except String`; the other
  state functions return their JS return value paired with the updated
  store.
-/

namespace RailwayMonitor

/-- Authenticated role attached to a connection by the auth middleware. -/
inductive Role where
  | kiosk
  | monitor
deriving DecidableEq, Repr

/-- The data the controller reads from a connection:
`socket.data.role`, `socket.data.clientId` and `socket.id`. -/
structure Conn where
  role : Role
  clientId : String
  socketId : String
deriving DecidableEq, Repr

/-- `session.status` values used by `sessions.state.js`. -/
inductive SessStatus where
  | active
  | ended
deriving DecidableEq, Repr

/-- A session record as built by `createSession` (and extended with
`endedAt` by `endSession`). -/
structure Session where
  kioskId : String
  monitorId : String
  monitorSocketId : String
  startedAt : Nat
  lastActivityAt : Nat
  status : SessStatus
  endedAt : Option Nat
deriving DecidableEq, Repr

/-- `const sessions = new Map()` - `Map<kioskId, sessionData>`. -/
abbrev SessionStore := List (String × Session)

/-- `sessions.get(kioskId)` (first entry with the key). -/
def lookupSession (st : SessionStore) (kioskId : String) : Option Session :=
  (st.find? (fun e => e.1 == kioskId)).map (·.2)

/-- `sessions.delete(kioskId)`. -/
def deleteSession (st : SessionStore) (kioskId : String) : SessionStore :=
  st.filter (fun e => e.1 != kioskId)

/-- `sessions.has(kioskId)`. -/
def hasSessionKey (st : SessionStore) (kioskId : String) : Bool :=
  (lookupSession st kioskId).isSome

/-- `createSession(kioskId, monitorId, monitorSocketId)` from
`sessions.state.js`: throws when an argument is missing or when the map
already keys this kiosk; otherwise inserts a fresh active session and
returns a copy of it. -/
def createSession (st : SessionStore) (kioskId monitorId monitorSocketId : String)
    (now : Nat) : Except String (Session × SessionStore) :=
  if kioskId = "" ∨ monitorId = "" ∨ monitorSocketId = "" then
    .error "kioskId, monitorId, and monitorSocketId are required"
  else if hasSessionKey st kioskId then
    .error ("Session already exists for kiosk: " ++ kioskId)
  else
    let sessionData : Session :=
      { kioskId := kioskId
        monitorId := monitorId
        monitorSocketId := monitorSocketId
        startedAt := now
        lastActivityAt := now
        status := .active
        endedAt := none }
    .ok (sessionData, st ++ [(kioskId, sessionData)])

/-- `endSession(kioskId)`: atomic remove-and-return; `null` on miss.
The returned copy carries `endedAt` and `status: 'ended'`; the stored
entry is deleted. -/
def endSession (st : SessionStore) (kioskId : String) (now : Nat) :
    Option Session × SessionStore :=
  if kioskId = "" then
    (none, st)
  else
    match lookupSession st kioskId with
    | none => (none, st)
    | some session =>
        let endedSession := { session with endedAt := some now, status := .ended }
        (some endedSession, deleteSession st kioskId)

/-- `endSessionByMonitorSocket(monitorSocketId)` - console draft of
`sessions.state.js` (the one the controller draft below imports): scans
the map in insertion order and ends the FIRST session whose
`monitorSocketId` matches, returning it; `null` when none matches. -/
def endSessionByMonitorSocket (st : SessionStore) (monitorSocketId : String)
    (now : Nat) : Option Session × SessionStore :=
  if monitorSocketId = "" then
    (none, st)
  else
    match st.find? (fun e => e.2.monitorSocketId == monitorSocketId) with
    | some e => endSession st e.1 now
    | none => (none, st)

/-- `endSessionByKiosk(kioskId)` - delegates to `endSession`. -/
def endSessionByKiosk (st : SessionStore) (kioskId : String) (now : Nat) :
    Option Session × SessionStore :=
  endSession st kioskId now

/-- `getSession(kioskId)`: a copy of the stored session, or `null`. -/
def getSession (st : SessionStore) (kioskId : String) : Option Session :=
  if kioskId = "" then none else lookupSession st kioskId

/-- `updateSessionActivity(kioskId)`: sets `lastActivityAt = now` in
place; returns whether a session was found. -/
def updateSessionActivity (st : SessionStore) (kioskId : String) (now : Nat) :
    Bool × SessionStore :=
  if kioskId = "" then
    (false, st)
  else
    match lookupSession st kioskId with
    | none => (false, st)
    | some _ =>
        (true, st.map (fun e =>
          if e.1 == kioskId then (e.1, { e.2 with lastActivityAt := now }) else e))

/-- `hasActiveSession(kioskId)`: entry present and `status === 'active'`. -/
def hasActiveSession (st : SessionStore) (kioskId : String) : Bool :=
  if kioskId = "" then
    false
  else
    match lookupSession st kioskId with
    | none => false
    | some session => session.status == .active

/-- `validateSessionOwnership(kioskId, monitorSocketId)`. -/
def validateSessionOwnership (st : SessionStore) (kioskId monitorSocketId : String) :
    Bool :=
  if kioskId = "" ∨ monitorSocketId = "" then
    false
  else
    match lookupSession st kioskId with
    | none => false
    | some session =>
        session.status == .active && session.monitorSocketId == monitorSocketId

/-- `getTimedOutSessions(timeoutMs)`: walks the map; for each entry with
`status === 'active'` and `now - lastActivityAt > timeoutMs` (strict,
computed over JS numbers, hence `Int` here) pushes a copy
`{ ...session, kioskId }`.  The function performs no writes to the map:
it is a pure read of the store. -/
def getTimedOutSessions (st : SessionStore) (now : Nat) (timeoutMs : Nat) :
    List Session :=
  st.filterMap (fun e =>
    if e.2.status = .active ∧ (now : Int) - (e.2.lastActivityAt : Int) > (timeoutMs : Int) then
      some { e.2 with kioskId := e.1 }
    else
      none)

/-- Kiosk registry entry status (`kiosks.state.js`). -/
inductive PresStatus where
  | online
  | offline
deriving DecidableEq, Repr

/-- A `kioskData` record from `kiosks.state.js`. -/
structure KioskEntry where
  kioskId : String
  socketId : String
  registeredAt : Nat
  lastSeenAt : Nat
  status : PresStatus
deriving DecidableEq, Repr

/-- `const kiosks = new Map()`. -/
abbrev KioskStore := List (String × KioskEntry)

/-- Association-list update with JS `Map.set` semantics: replace the
existing entry in place, else append. -/
def setEntry {α : Type} (st : List (String × α)) (k : String) (v : α) :
    List (String × α) :=
  if (st.find? (fun e => e.1 == k)).isSome then
    st.map (fun e => if e.1 == k then (k, v) else e)
  else
    st ++ [(k, v)]

/-- `registerKiosk(kioskId, socketId)` (the throw on empty arguments is
handled at the call site in the controller). -/
def registerKiosk (st : KioskStore) (kioskId socketId : String) (now : Nat) :
    KioskEntry × KioskStore :=
  let kioskData : KioskEntry :=
    { kioskId := kioskId, socketId := socketId, registeredAt := now
      lastSeenAt := now, status := .online }
  (kioskData, setEntry st kioskId kioskData)

/-- `getKiosk(kioskId)`. -/
def getKiosk (st : KioskStore) (kioskId : String) : Option KioskEntry :=
  if kioskId = "" then none
  else (st.find? (fun e => e.1 == kioskId)).map (·.2)

/-- `removeKiosk(kioskId)`. -/
def removeKiosk (st : KioskStore) (kioskId : String) : KioskStore :=
  if kioskId = "" then st else st.filter (fun e => e.1 != kioskId)

/-- `updateLastSeen(kioskId)`: refresh `lastSeenAt`, force `online`;
no-op returning false when the kiosk is not registered. -/
def updateLastSeen (st : KioskStore) (kioskId : String) (now : Nat) :
    Bool × KioskStore :=
  if kioskId = "" then (false, st)
  else
    match st.find? (fun e => e.1 == kioskId) with
    | none => (false, st)
    | some _ =>
        (true, st.map (fun e =>
          if e.1 == kioskId then
            (e.1, { e.2 with lastSeenAt := now, status := .online })
          else e))

/-- `markOffline(kioskId)` from `kiosks.state.js`. -/
def markKioskOffline (st : KioskStore) (kioskId : String) (now : Nat) :
    Bool × KioskStore :=
  if kioskId = "" then (false, st)
  else
    match st.find? (fun e => e.1 == kioskId) with
    | none => (false, st)
    | some _ =>
        (true, st.map (fun e =>
          if e.1 == kioskId then
            (e.1, { e.2 with status := .offline, lastSeenAt := now })
          else e))

/-- `isKioskOnline(kioskId)`. -/
def isKioskOnline (st : KioskStore) (kioskId : String) : Bool :=
  if kioskId = "" then false
  else
    match st.find? (fun e => e.1 == kioskId) with
    | none => false
    | some e => e.2.status == .online

/-- A `monitorData` record from `monitors.state.js`. -/
structure MonitorEntry where
  monitorId : String
  socketId : String
  registeredAt : Nat
  lastSeenAt : Nat
  status : PresStatus
deriving DecidableEq, Repr

/-- `const monitors = new Map()`. -/
abbrev MonitorStore := List (String × MonitorEntry)

/-- `registerMonitor(monitorId, socketId)`. -/
def registerMonitor (st : MonitorStore) (monitorId socketId : String) (now : Nat) :
    MonitorEntry × MonitorStore :=
  let monitorData : MonitorEntry :=
    { monitorId := monitorId, socketId := socketId, registeredAt := now
      lastSeenAt := now, status := .online }
  (monitorData, setEntry st monitorId monitorData)

/-- `getMonitor(monitorId)`. -/
def getMonitor (st : MonitorStore) (monitorId : String) : Option MonitorEntry :=
  if monitorId = "" then none
  else (st.find? (fun e => e.1 == monitorId)).map (·.2)

/-- `removeMonitor(monitorId)`. -/
def removeMonitor (st : MonitorStore) (monitorId : String) : MonitorStore :=
  if monitorId = "" then st else st.filter (fun e => e.1 != monitorId)

/-- `const heartbeatStore = new Map()` - `Map<kioskId, lastPingEpochMs>`. -/
abbrev HeartbeatStore := List (String × Nat)

/-- `processHeartbeatPing(kioskId)` from `utils/heartbeat.js`: stores
`now` and answers `{valid, timestamp}` (the ISO timestamp is the caller
supplied `nowIso`). -/
def processHeartbeatPing (st : HeartbeatStore) (kioskId : String) (now : Nat) :
    Bool × HeartbeatStore :=
  if kioskId = "" then (false, st)
  else (true, setEntry st kioskId now)

/-- `removeHeartbeat(kioskId)`. -/
def removeHeartbeat (st : HeartbeatStore) (kioskId : String) : HeartbeatStore :=
  if kioskId = "" then st else st.filter (fun e => e.1 != kioskId)

/-- `const rateLimitStore = new Map()` - `Map<"clientId:eventType",
Array<timestamps>>`. -/
abbrev RateStore := List (String × List Nat)

/-- The key `` clientId + ':' + eventType `` used by the rate limiter. -/
def rateKey (clientId eventType : String) : String :=
  clientId ++ ":" ++ eventType

/-- `DEFAULT_LIMITS[eventType] || 60` from `utils/rate.limiter.js`. -/
def defaultLimit (eventType : String) : Nat :=
  if eventType = "crew-sign-on" then 10
  else if eventType = "crew-sign-off" then 10
  else if eventType = "offer" then 30
  else if eventType = "answer" then 30
  else if eventType = "ice-candidate" then 60
  else 60

/-- `entries.filter(timestamp => timestamp > oneMinuteAgo)` where
`oneMinuteAgo = now - 60000` over JS numbers. -/
def rlFilter (now : Nat) (l : List Nat) : List Nat :=
  l.filter (fun ts => (ts : Int) > (now : Int) - 60000)

/-- `rateLimitStore.get(key)`. -/
def lookupRate (st : RateStore) (key : String) : Option (List Nat) :=
  (st.find? (fun e => e.1 == key)).map (·.2)

/-- `cleanupOldEntries(clientId, eventType)`: prune the key's array to
the last minute; delete the key when nothing remains. -/
def cleanupOldEntries (st : RateStore) (clientId eventType : String) (now : Nat) :
    RateStore :=
  let key := rateKey clientId eventType
  match lookupRate st key with
  | none => st
  | some entries =>
      let filtered := rlFilter now entries
      if filtered = [] then st.filter (fun e => e.1 != key)
      else setEntry st key filtered

/-- Result object of `checkRateLimit`. `resetAt` is `none` exactly in
the degenerate empty-argument branch (where the JS object carries
`resetAt: null` and no `current`/`limit` fields; those are 0 here). -/
structure RateResult where
  allowed : Bool
  remaining : Nat
  resetAt : Option Nat
  current : Nat
  limit : Nat
deriving DecidableEq, Repr

/-- `checkRateLimit(clientId, eventType, limit = null)` from
`utils/rate.limiter.js`. -/
def checkRateLimit (st : RateStore) (clientId eventType : String)
    (limitArg : Option Nat) (now : Nat) : RateResult × RateStore :=
  if clientId = "" ∨ eventType = "" then
    ({ allowed := false, remaining := 0, resetAt := none, current := 0, limit := 0 }, st)
  else
    let eventLimit := match limitArg with
      | some l => l
      | none => defaultLimit eventType
    let key := rateKey clientId eventType
    let st1 := cleanupOldEntries st clientId eventType now
    let entries := (lookupRate st1 key).getD []
    let recentEntries := rlFilter now entries
    let allowed := recentEntries.length < eventLimit
    let remaining := eventLimit - recentEntries.length
    let resetAt := match recentEntries with
      | [] => now + 60000
      | t :: _ => t + 60000
    if allowed then
      ({ allowed := true, remaining := remaining, resetAt := some resetAt
         current := recentEntries.length + 1, limit := eventLimit },
       setEntry st1 key (recentEntries ++ [now]))
    else
      ({ allowed := false, remaining := remaining, resetAt := some resetAt
         current := recentEntries.length, limit := eventLimit }, st1)

/-- `resetAllRateLimits(clientId)`: drop every key that starts with
`` clientId + ':' ``. -/
def resetAllRateLimits (st : RateStore) (clientId : String) : RateStore :=
  if clientId = "" then st
  else st.filter (fun e => e.1.take (clientId.length + 1) != clientId ++ ":")

/-- Error codes emitted by the controller (`errors/error.codes.js`). -/
inductive ECode where
  | AUTH_INVALID_ROLE
  | OPERATION_NOT_ALLOWED
  | INVALID_REQUEST
  | CLIENT_NOT_REGISTERED
  | SESSION_KIOSK_OFFLINE
  | SESSION_ALREADY_EXISTS
  | SESSION_NOT_FOUND
  | SESSION_NOT_AUTHORIZED
  | SIGNALING_MISSING_DATA
  | SIGNALING_INVALID_TARGET
  | SIGNALING_INVALID_PAIRING
  | SIGNALING_NO_SESSION
  | SIGNALING_UNAUTHORIZED_SENDER
  | CREW_EVENT_UNAUTHORIZED
  | CREW_EVENT_INVALID_PAYLOAD
  | RATE_LIMIT_EXCEEDED
  | INTERNAL_ERROR
deriving DecidableEq, Repr

/-- The broker's whole mutable state: the four in-memory stores the
handlers in `src/socket/index.js` touch. -/
structure Broker where
  kiosks : KioskStore
  monitors : MonitorStore
  sessions : SessionStore
  heartbeats : HeartbeatStore
  rate : RateStore
deriving DecidableEq, Repr

/-- The broker before any connection: five empty maps. -/
def Broker.init : Broker :=
  { kiosks := [], monitors := [], sessions := [], heartbeats := [], rate := [] }

/-- Reply of the `start-monitoring` handler.  The fresh-session branch
includes `startedAt` in the payload, the already-owner branch does not;
both are a `monitoring-started` emit to the sender. -/
inductive StartReply where
  | err (code : ECode)
  | started (kioskId sessionId : String) (startedAt : Option Nat)
deriving DecidableEq, Repr

/-- `socket.on('start-monitoring')` from `src/socket/index.js`
(console draft, lines 153-209). -/
def handleStartMonitoring (b : Broker) (conn : Conn) (kioskId : String)
    (now : Nat) : StartReply × Broker :=
  if conn.role ≠ .monitor then
    (.err .OPERATION_NOT_ALLOWED, b)
  else if kioskId = "" then
    (.err .INVALID_REQUEST, b)
  else if ¬ isKioskOnline b.kiosks kioskId then
    (.err .SESSION_KIOSK_OFFLINE, b)
  else if hasActiveSession b.sessions kioskId then
    match getSession b.sessions kioskId with
    | none => (.err .INTERNAL_ERROR, b) -- unreachable: hasActiveSession guards presence
    | some existingSession =>
        if existingSession.monitorSocketId ≠ conn.socketId then
          (.err .SESSION_ALREADY_EXISTS, b)
        else
          let upd := updateSessionActivity b.sessions kioskId now
          (.started kioskId kioskId none, { b with sessions := upd.2 })
  else
    match createSession b.sessions kioskId conn.clientId conn.socketId now with
    | .ok (session, st) =>
        (.started kioskId kioskId (some session.startedAt), { b with sessions := st })
    | .error _ => (.err .SESSION_NOT_AUTHORIZED, b)

/-- Reply of the `stop-monitoring` handler. -/
inductive StopReply where
  | err (code : ECode)
  | stopped (kioskId : String)
deriving DecidableEq, Repr

/-- `socket.on('stop-monitoring')` from `src/socket/index.js`
(console draft, lines 216-257). -/
def handleStopMonitoring (b : Broker) (conn : Conn) (kioskId : String)
    (now : Nat) : StopReply × Broker :=
  if conn.role ≠ .monitor then
    (.err .OPERATION_NOT_ALLOWED, b)
  else if kioskId = "" then
    (.err .INVALID_REQUEST, b)
  else if ¬ hasActiveSession b.sessions kioskId then
    (.err .SESSION_NOT_FOUND, b)
  else if ¬ validateSessionOwnership b.sessions kioskId conn.socketId then
    (.err .SESSION_NOT_AUTHORIZED, b)
  else
    let ended := endSession b.sessions kioskId now
    (.stopped kioskId, { b with sessions := ended.2 })

/-- Result of a signaling handler (`offer` / `answer` / `ice-candidate`):
either a typed error to the sender, or the
`targetSocket.emit(kind, { fromId, <signal> })` forwarding step. -/
inductive SignalResult where
  | err (code : ECode)
  | forwarded (targetSocketId fromId : String)
deriving DecidableEq, Repr

/-- The shared body of `socket.on('offer')`, `socket.on('answer')` and
`socket.on('ice-candidate')` in `src/socket/index.js` (console draft,
lines 268-351, 362-445 and 456-539; the three handlers are verbatim
copies of each other apart from the rate-limit kind and the name of the
opaque signal field).  `signalPresent` is the truthiness of the opaque
payload field; `live` is the set of currently connected socket ids
(`io.sockets.sockets`). -/
def handleSignal (b : Broker) (conn : Conn) (kind : String)
    (targetId : String) (signalPresent : Bool) (now : Nat)
    (live : List String) : SignalResult × Broker :=
  if ¬ (targetId ≠ "" ∧ signalPresent) then
    (.err .SIGNALING_MISSING_DATA, b)
  else
    let rl := checkRateLimit b.rate conn.clientId kind none now
    let b := { b with rate := rl.2 }
    if ¬ rl.1.allowed then
      (.err .RATE_LIMIT_EXCEEDED, b)
    else
      let targetKiosk := getKiosk b.kiosks targetId
      let targetMonitor := getMonitor b.monitors targetId
      if targetKiosk.isNone ∧ targetMonitor.isNone then
        (.err .SIGNALING_INVALID_TARGET, b)
      else
        let targetRole : Role := if targetKiosk.isSome then .kiosk else .monitor
        let targetSocketId := match targetKiosk with
          | some k => k.socketId
          | none => (targetMonitor.map (·.socketId)).getD ""
        if ¬ ((conn.role = .kiosk ∧ targetRole = .monitor) ∨
              (conn.role = .monitor ∧ targetRole = .kiosk)) then
          (.err .SIGNALING_INVALID_PAIRING, b)
        else
          let kioskId := if conn.role = .kiosk then conn.clientId else targetId
          if ¬ hasActiveSession b.sessions kioskId then
            (.err .SIGNALING_NO_SESSION, b)
          else
            match getSession b.sessions kioskId with
            | none => (.err .INTERNAL_ERROR, b) -- unreachable: hasActiveSession guards presence
            | some session =>
                if conn.role = .monitor ∧ session.monitorSocketId ≠ conn.socketId then
                  (.err .SIGNALING_UNAUTHORIZED_SENDER, b)
                else if conn.role ≠ .monitor ∧ session.kioskId ≠ conn.clientId then
                  (.err .SIGNALING_UNAUTHORIZED_SENDER, b)
                else
                  let upd := updateSessionActivity b.sessions kioskId now
                  let b := { b with sessions := upd.2 }
                  if targetSocketId ∈ live then
                    (.forwarded targetSocketId conn.clientId, b)
                  else
                    (.err .SIGNALING_INVALID_TARGET, b)

/-- Result of the `heartbeat-ping` handler: a typed error, a
`heartbeat-pong` emit, or silence (the `result.valid === false` branch
emits nothing). -/
inductive HeartbeatResult where
  | err (code : ECode)
  | pong
  | silent
deriving DecidableEq, Repr

/-- `socket.on('heartbeat-ping')` from `src/socket/index.js` (console
draft, lines 545-568): role guard only, then `processHeartbeatPing`,
`updateLastSeen`, `heartbeat-pong`.  There is no registration check. -/
def handleHeartbeatPing (b : Broker) (conn : Conn) (now : Nat) :
    HeartbeatResult × Broker :=
  if conn.role ≠ .kiosk then
    (.err .OPERATION_NOT_ALLOWED, b)
  else
    let hb := processHeartbeatPing b.heartbeats conn.clientId now
    let b := { b with heartbeats := hb.2 }
    if hb.1 then
      let seen := updateLastSeen b.kiosks conn.clientId now
      (.pong, { b with kiosks := seen.2 })
    else
      (.silent, b)

/-- A crew event payload as sent by the client
(`{employeeId, name, kioskId, timestamp?}`); absent/empty fields are
the empty string. -/
structure CrewPayload where
  employeeId : String
  name : String
  kioskId : String
  timestamp : String
deriving DecidableEq, Repr

/-- `validateCrewEventPayload(payload)` from `events/crew.events.js`:
`employeeId`, `name` and `kioskId` must be non-empty strings. -/
def validCrewPayload (p : CrewPayload) : Bool :=
  p.employeeId != "" && p.name != "" && p.kioskId != ""

/-- The `eventData` object broadcast to the monitors room by
`broadcastCrewSignOn` / `broadcastCrewSignOff`. -/
structure CrewEventData where
  employeeId : String
  name : String
  timestamp : String
  kioskId : String
  eventType : String
deriving DecidableEq, Repr

/-- Result of a crew event handler: a typed error, or the broadcast
`eventData` plus the `crew-sign-(on|off)-ack` payload (`employeeId`). -/
inductive CrewResult where
  | err (code : ECode)
  | ok (broadcast : CrewEventData) (ackEmployeeId : String)
deriving DecidableEq, Repr

/-- Shared body of `socket.on('crew-sign-on')` (lines 575-619) and
`socket.on('crew-sign-off')` (lines 626-670) of the console controller
draft, composed with `broadcastCrewSignOn` / `broadcastCrewSignOff`
from `events/crew.events.js`; the two handlers differ only in the event
name used for the rate-limit kind, the broadcast and the ack.
The handler overwrites the payload's `kioskId` with the authenticated
`clientId` before broadcasting. -/
def handleCrewEvent (b : Broker) (conn : Conn) (eventName : String)
    (p : CrewPayload) (now : Nat) (nowIso : String) : CrewResult × Broker :=
  if conn.role ≠ .kiosk then
    (.err .CREW_EVENT_UNAUTHORIZED, b)
  else if (getKiosk b.kiosks conn.clientId).isNone then
    (.err .CLIENT_NOT_REGISTERED, b)
  else
    let rl := checkRateLimit b.rate conn.clientId eventName none now
    let b := { b with rate := rl.2 }
    if ¬ rl.1.allowed then
      (.err .RATE_LIMIT_EXCEEDED, b)
    else if ¬ validCrewPayload p then
      (.err .CREW_EVENT_INVALID_PAYLOAD, b)
    else
      let eventData : CrewEventData :=
        { employeeId := p.employeeId
          name := p.name
          timestamp := if p.timestamp = "" then nowIso else p.timestamp
          kioskId := conn.clientId
          eventType := eventName }
      (.ok eventData p.employeeId, b)

/-- `socket.on('crew-sign-on')`. -/
def handleCrewSignOn (b : Broker) (conn : Conn) (p : CrewPayload)
    (now : Nat) (nowIso : String) : CrewResult × Broker :=
  handleCrewEvent b conn "crew-sign-on" p now nowIso

/-- `socket.on('crew-sign-off')`. -/
def handleCrewSignOff (b : Broker) (conn : Conn) (p : CrewPayload)
    (now : Nat) (nowIso : String) : CrewResult × Broker :=
  handleCrewEvent b conn "crew-sign-off" p now nowIso

/-- Reply of `register-kiosk` / `register-monitor`. -/
inductive RegisterReply where
  | err (code : ECode)
  | registered
deriving DecidableEq, Repr

/-- `socket.on('register-kiosk')` (console draft, lines 86-112). -/
def handleRegisterKiosk (b : Broker) (conn : Conn) (now : Nat) :
    RegisterReply × Broker :=
  if conn.role ≠ .kiosk then
    (.err .AUTH_INVALID_ROLE, b)
  else if conn.clientId = "" ∨ conn.socketId = "" then
    (.err .INTERNAL_ERROR, b) -- registerKiosk throws, caught by the handler
  else
    (.registered, { b with kiosks := (registerKiosk b.kiosks conn.clientId conn.socketId now).2 })

/-- `socket.on('register-monitor')` (console draft, lines 117-146). -/
def handleRegisterMonitor (b : Broker) (conn : Conn) (now : Nat) :
    RegisterReply × Broker :=
  if conn.role ≠ .monitor then
    (.err .AUTH_INVALID_ROLE, b)
  else if conn.clientId = "" ∨ conn.socketId = "" then
    (.err .INTERNAL_ERROR, b) -- registerMonitor throws, caught by the handler
  else
    (.registered, { b with monitors := (registerMonitor b.monitors conn.clientId conn.socketId now).2 })

/-- `socket.on('disconnect')` from `src/socket/index.js` (console
draft, lines 682-741).  KIOSK path: drop the heartbeat entry, mark the
kiosk offline, end the session keyed by this kiosk, remove the kiosk,
reset the rate counters.  MONITOR path: `endSessionByMonitorSocket`
(the console draft of `sessions.state.js`, which ends only the first
matching session), remove the monitor, reset the rate counters.
The returned option is the ended session used for the `session-ended`
broadcast. -/
def handleDisconnect (b : Broker) (conn : Conn) (now : Nat) :
    Option Session × Broker :=
  if conn.role = .kiosk then
    let hb := removeHeartbeat b.heartbeats conn.clientId
    let km := (markKioskOffline b.kiosks conn.clientId now).2
    let ended := endSessionByKiosk b.sessions conn.clientId now
    let km2 := removeKiosk km conn.clientId
    (ended.1,
     { kiosks := km2, monitors := b.monitors, sessions := ended.2
       heartbeats := hb, rate := resetAllRateLimits b.rate conn.clientId })
  else
    let ended := endSessionByMonitorSocket b.sessions conn.socketId now
    (ended.1,
     { kiosks := b.kiosks, monitors := removeMonitor b.monitors conn.clientId
       sessions := ended.2, heartbeats := b.heartbeats
       rate := resetAllRateLimits b.rate conn.clientId })

/-- One observable step against the broker: a raw session-store call or
one of the controller's message handlers. -/
inductive Op where
  | rawCreate (k m ms : String) (now : Nat)
  | rawEnd (k : String) (now : Nat)
  | rawEndByMonitor (ms : String) (now : Nat)
  | regKiosk (conn : Conn) (now : Nat)
  | regMonitor (conn : Conn) (now : Nat)
  | startMon (conn : Conn) (k : String) (now : Nat)
  | stopMon (conn : Conn) (k : String) (now : Nat)
  | signal (conn : Conn) (kind targetId : String) (signalPresent : Bool)
      (now : Nat) (live : List String)
  | heartbeat (conn : Conn) (now : Nat)
  | crewOn (conn : Conn) (p : CrewPayload) (now : Nat) (iso : String)
  | crewOff (conn : Conn) (p : CrewPayload) (now : Nat) (iso : String)
  | disc (conn : Conn) (now : Nat)

/-- Apply one step to the broker state (outputs discarded; a raw
`createSession` that throws leaves the store untouched). -/
def applyOp (b : Broker) : Op → Broker
  | .rawCreate k m ms now =>
      match createSession b.sessions k m ms now with
      | .ok (_, st) => { b with sessions := st }
      | .error _ => b
  | .rawEnd k now => { b with sessions := (endSession b.sessions k now).2 }
  | .rawEndByMonitor ms now =>
      { b with sessions := (endSessionByMonitorSocket b.sessions ms now).2 }
  | .regKiosk conn now => (handleRegisterKiosk b conn now).2
  | .regMonitor conn now => (handleRegisterMonitor b conn now).2
  | .startMon conn k now => (handleStartMonitoring b conn k now).2
  | .stopMon conn k now => (handleStopMonitoring b conn k now).2
  | .signal conn kind targetId sp now live =>
      (handleSignal b conn kind targetId sp now live).2
  | .heartbeat conn now => (handleHeartbeatPing b conn now).2
  | .crewOn conn p now iso => (handleCrewSignOn b conn p now iso).2
  | .crewOff conn p now iso => (handleCrewSignOff b conn p now iso).2
  | .disc conn now => (handleDisconnect b conn now).2

/-- Run a sequence of steps from the empty broker. -/
def runOps (ops : List Op) : Broker :=
  ops.foldl applyOp Broker.init

/-- The session-store invariant maintained by every operation:
keys are unique and non-empty, every stored session is `active`, and
every stored session's `kioskId` field equals its map key. -/
structure SessInv (st : SessionStore) : Prop where
  nodup : (st.map Prod.fst).Nodup
  active : ∀ e ∈ st, e.2.status = SessStatus.active
  keyNe : ∀ e ∈ st, e.1 ≠ ""
  keyed : ∀ e ∈ st, e.2.kioskId = e.1

/-- Sample session for concrete witnesses: kiosk `K1` watched by
monitor `M1` on socket `S1`. -/
def sessK1 : Session :=
  { kioskId := "K1", monitorId := "M1", monitorSocketId := "S1"
    startedAt := 3, lastActivityAt := 3, status := .active, endedAt := none }

/-- Sample session for concrete witnesses: kiosk `K2` watched by the
same monitor `M1` on the same socket `S1`. -/
def sessK2 : Session :=
  { kioskId := "K2", monitorId := "M1", monitorSocketId := "S1"
    startedAt := 4, lastActivityAt := 4, status := .active, endedAt := none }

/-- Sample online kiosk registry entry for `K1` on socket `KS1`. -/
def kioskEntryK1 : KioskEntry :=
  { kioskId := "K1", socketId := "KS1", registeredAt := 1, lastSeenAt := 1
    status := .online }

/-- Sample online kiosk registry entry for `K2` on socket `KS2`. -/
def kioskEntryK2 : KioskEntry :=
  { kioskId := "K2", socketId := "KS2", registeredAt := 1, lastSeenAt := 1
    status := .online }

/-- Sample monitor registry entry for `M1` on socket `S1`. -/
def monitorEntryM1 : MonitorEntry :=
  { monitorId := "M1", socketId := "S1", registeredAt := 2, lastSeenAt := 2
    status := .online }

/-- Sample monitor registry entry for `M2` on socket `S2`. -/
def monitorEntryM2 : MonitorEntry :=
  { monitorId := "M2", socketId := "S2", registeredAt := 2, lastSeenAt := 2
    status := .online }

/-- Sample connection: the kiosk client `K1` on socket `KS1`. -/
def connK1 : Conn := { role := .kiosk, clientId := "K1", socketId := "KS1" }

/-- Sample connection: the monitor client `M1` on socket `S1`. -/
def connM1 : Conn := { role := .monitor, clientId := "M1", socketId := "S1" }

/-- Sample broker: kiosk `K1` and monitor `M1` registered, `M1`
monitoring `K1` (session `sessK1`). -/
def brokerA : Broker :=
  { kiosks := [("K1", kioskEntryK1)], monitors := [("M1", monitorEntryM1)]
    sessions := [("K1", sessK1)], heartbeats := [], rate := [] }

/-- Sample broker: kiosk `K1` online, monitors `M1` and `M2` registered,
`M1` monitoring `K1`. -/
def brokerB : Broker :=
  { kiosks := [("K1", kioskEntryK1)]
    monitors := [("M1", monitorEntryM1), ("M2", monitorEntryM2)]
    sessions := [("K1", sessK1)], heartbeats := [], rate := [] }

/-- Sample broker: kiosk `K1` online, monitor `M1` registered, no
session yet. -/
def brokerC : Broker :=
  { kiosks := [("K1", kioskEntryK1)], monitors := [("M1", monitorEntryM1)]
    sessions := [], heartbeats := [], rate := [] }

/-- Sample broker: monitor `M1` owns two sessions (kiosks `K1` and
`K2`, both on socket `S1`) and has a rate counter. -/
def brokerD : Broker :=
  { kiosks := [], monitors := [("M1", monitorEntryM1)]
    sessions := [("K1", sessK1), ("K2", sessK2)], heartbeats := []
    rate := [("M1:offer", [7])] }

/-- The fresh session record `createSession` builds at time `t`. -/
def mkSession (k m ms : String) (t : Nat) : Session :=
  { kioskId := k, monitorId := m, monitorSocketId := ms, startedAt := t
    lastActivityAt := t, status := .active, endedAt := none }

/-- Single-key view of one `checkRateLimit` call: prune to the last
minute, allow iff strictly under the ceiling, append `now` when
allowed.  (`checkRateLimit` below is proven to act exactly like this on
the key's array.) -/
def rlStep (limit : Nat) (l : List Nat) (now : Nat) : Bool × List Nat :=
  let recent := rlFilter now l
  if recent.length < limit then (true, recent ++ [now]) else (false, recent)

/-- Iterate `rlStep` over a list of call times; final array. -/
def rlRunState (limit : Nat) (l : List Nat) : List Nat → List Nat
  | [] => l
  | t :: ts => rlRunState limit (rlStep limit l t).2 ts

/-- The `allowed` verdicts of an `rlStep` trace, in order. -/
def rlFlags (limit : Nat) (l : List Nat) : List Nat → List Bool
  | [] => []
  | t :: ts => (rlStep limit l t).1 :: rlFlags limit (rlStep limit l t).2 ts

/-- The accepted call times of an `rlStep` trace, in order. -/
def rlAccepted (limit : Nat) (l : List Nat) : List Nat → List Nat
  | [] => []
  | t :: ts =>
      (if (rlStep limit l t).1 then [t] else []) ++
        rlAccepted limit (rlStep limit l t).2 ts

/-- Run a sequence of `checkRateLimit` calls for one fixed
`(clientId, eventType)` pair at the given times; returns the `allowed`
verdict of each call and the final store. -/
def runRateTrace (st : RateStore) (c k : String) : List Nat → List Bool × RateStore
  | [] => ([], st)
  | t :: ts =>
      let r := checkRateLimit st c k none t
      let rest := runRateTrace r.2 c k ts
      (r.1.allowed :: rest.1, rest.2)

/-- The call times a trace accepted (times zipped with verdicts,
keeping the allowed ones). -/
def acceptedTimes (times : List Nat) (flags : List Bool) : List Nat :=
  ((times.zip flags).filter (fun p => p.2)).map Prod.fst

/-- `a` lies in the 60 s window ending at `t`:
`t - 60000 < a ∧ a ≤ t` over JS numbers. -/
def inWindow (t a : Nat) : Bool :=
  decide ((a : Int) > (t : Int) - 60000) && decide (a ≤ t)

/-! ## Helper lemmas about the session store -/

theorem lookupSession_eq_none {st : SessionStore} {k : String} :
    lookupSession st k = none ↔ ∀ e ∈ st, e.1 ≠ k := by
  simp [lookupSession, List.find?_eq_none]

theorem lookupSession_mem {st : SessionStore} {k : String} {s : Session}
    (h : lookupSession st k = some s) : (k, s) ∈ st := by
  unfold lookupSession at h
  cases hf : st.find? (fun e => e.1 == k) with
  | none => rw [hf] at h; simp at h
  | some e =>
      rw [hf] at h
      have h2 : e.2 = s := by simpa using h
      have hm := List.mem_of_find?_eq_some hf
      have hp := List.find?_some hf
      have hk : e.1 = k := by simpa using hp
      have he : e = (k, s) := by
        obtain ⟨e1, e2⟩ := e
        simp only at hk h2
        rw [hk, h2]
      rwa [he] at hm

theorem sessInv_nil : SessInv [] := by
  constructor <;> simp

theorem sessInv_delete {st : SessionStore} {k : String} (h : SessInv st) :
    SessInv (deleteSession st k) := by
  constructor
  · exact (((List.filter_sublist st).map Prod.fst).nodup h.nodup)
  · exact fun e he => h.active e (List.mem_of_mem_filter he)
  · exact fun e he => h.keyNe e (List.mem_of_mem_filter he)
  · exact fun e he => h.keyed e (List.mem_of_mem_filter he)

theorem sessInv_mapActivity {st : SessionStore} (h : SessInv st)
    (k : String) (now : Nat) :
    SessInv (st.map fun e =>
      if e.1 == k then (e.1, { e.2 with lastActivityAt := now }) else e) := by
  have hfst : ((st.map fun e =>
      if e.1 == k then (e.1, { e.2 with lastActivityAt := now }) else e).map
        Prod.fst) = st.map Prod.fst := by
    rw [List.map_map]
    apply List.map_congr_left
    intro e _
    by_cases hek : e.1 = k <;> simp [hek]
  constructor
  · rw [hfst]; exact h.nodup
  · intro e he
    obtain ⟨a, ha, rfl⟩ := List.mem_map.mp he
    by_cases hak : a.1 = k <;> simpa [hak] using h.active a ha
  · intro e he
    obtain ⟨a, ha, rfl⟩ := List.mem_map.mp he
    by_cases hak : a.1 = k <;> simpa [hak] using h.keyNe a ha
  · intro e he
    obtain ⟨a, ha, rfl⟩ := List.mem_map.mp he
    by_cases hak : a.1 = k <;> simpa [hak] using h.keyed a ha

theorem sessInv_updateActivity {st : SessionStore} {k : String} {now : Nat}
    (h : SessInv st) : SessInv (updateSessionActivity st k now).2 := by
  unfold updateSessionActivity
  split
  · exact h
  · cases hl : lookupSession st k with
    | none => simpa [hl] using h
    | some s => simpa [hl] using sessInv_mapActivity h k now

theorem sessInv_create {st : SessionStore} {k m ms : String} {now : Nat}
    {s : Session} {st' : SessionStore} (h : SessInv st)
    (hc : createSession st k m ms now = .ok (s, st')) : SessInv st' := by
  unfold createSession at hc
  split at hc
  · simp at hc
  · rename_i hne
    split at hc
    · simp at hc
    · rename_i hhas
      simp only [Except.ok.injEq, Prod.mk.injEq] at hc
      obtain ⟨hs, hst⟩ := hc
      subst hst
      have hkne : k ≠ "" := by
        intro hk
        exact hne (Or.inl hk)
      have hnotin : ∀ e ∈ st, e.1 ≠ k := by
        have : lookupSession st k = none := by
          unfold hasSessionKey at hhas
          cases hl : lookupSession st k with
          | none => rfl
          | some _ => rw [hl] at hhas; simp at hhas
        exact lookupSession_eq_none.mp this
      constructor
      · rw [List.map_append]
        rw [List.nodup_append]
        refine ⟨h.nodup, by simp, ?_⟩
        intro x hx
        obtain ⟨e, he, rfl⟩ := List.mem_map.mp hx
        simp only [List.map_cons, List.map_nil, List.mem_singleton]
        intro hek
        exact hnotin e he hek
      · intro e he
        rcases List.mem_append.mp he with h1 | h1
        · exact h.active e h1
        · simp only [List.mem_singleton] at h1
          subst h1; rfl
      · intro e he
        rcases List.mem_append.mp he with h1 | h1
        · exact h.keyNe e h1
        · simp only [List.mem_singleton] at h1
          subst h1; exact hkne
      · intro e he
        rcases List.mem_append.mp he with h1 | h1
        · exact h.keyed e h1
        · simp only [List.mem_singleton] at h1
          subst h1; rfl

theorem sessInv_end {st : SessionStore} {k : String} {now : Nat}
    (h : SessInv st) : SessInv (endSession st k now).2 := by
  unfold endSession
  split
  · exact h
  · cases hl : lookupSession st k with
    | none => simpa [hl] using h
    | some s => simpa [hl] using sessInv_delete h

theorem sessInv_endByMonitor {st : SessionStore} {ms : String} {now : Nat}
    (h : SessInv st) : SessInv (endSessionByMonitorSocket st ms now).2 := by
  unfold endSessionByMonitorSocket
  split
  · exact h
  · cases hf : st.find? (fun e => e.2.monitorSocketId == ms) with
    | none => simpa [hf] using h
    | some e => simpa [hf] using sessInv_end h

theorem sessInv_startMon {b : Broker} {conn : Conn} {k : String} {now : Nat}
    (h : SessInv b.sessions) :
    SessInv (handleStartMonitoring b conn k now).2.sessions := by
  unfold handleStartMonitoring
  dsimp only
  repeat' split
  all_goals first
    | exact h
    | exact sessInv_updateActivity h
    | (rename_i heq; exact sessInv_create h heq)

theorem sessInv_stopMon {b : Broker} {conn : Conn} {k : String} {now : Nat}
    (h : SessInv b.sessions) :
    SessInv (handleStopMonitoring b conn k now).2.sessions := by
  unfold handleStopMonitoring
  dsimp only
  repeat' split
  all_goals first
    | exact h
    | exact sessInv_end h

theorem sessInv_signal {b : Broker} {conn : Conn} {kind targetId : String}
    {sp : Bool} {now : Nat} {live : List String} (h : SessInv b.sessions) :
    SessInv (handleSignal b conn kind targetId sp now live).2.sessions := by
  unfold handleSignal
  dsimp only
  repeat' split
  all_goals first
    | exact h
    | exact sessInv_updateActivity h

theorem sessInv_heartbeat {b : Broker} {conn : Conn} {now : Nat}
    (h : SessInv b.sessions) :
    SessInv (handleHeartbeatPing b conn now).2.sessions := by
  unfold handleHeartbeatPing
  dsimp only
  repeat' split
  all_goals exact h

theorem sessInv_crew {b : Broker} {conn : Conn} {eventName : String}
    {p : CrewPayload} {now : Nat} {iso : String} (h : SessInv b.sessions) :
    SessInv (handleCrewEvent b conn eventName p now iso).2.sessions := by
  unfold handleCrewEvent
  dsimp only
  repeat' split
  all_goals exact h

theorem sessInv_regKiosk {b : Broker} {conn : Conn} {now : Nat}
    (h : SessInv b.sessions) :
    SessInv (handleRegisterKiosk b conn now).2.sessions := by
  unfold handleRegisterKiosk
  split
  · exact h
  split
  · exact h
  · exact h

theorem sessInv_regMonitor {b : Broker} {conn : Conn} {now : Nat}
    (h : SessInv b.sessions) :
    SessInv (handleRegisterMonitor b conn now).2.sessions := by
  unfold handleRegisterMonitor
  split
  · exact h
  split
  · exact h
  · exact h

theorem sessInv_disconnect {b : Broker} {conn : Conn} {now : Nat}
    (h : SessInv b.sessions) :
    SessInv (handleDisconnect b conn now).2.sessions := by
  unfold handleDisconnect
  split
  · simpa [endSessionByKiosk] using sessInv_end h
  · simpa using sessInv_endByMonitor h

theorem sessInv_applyOp {b : Broker} (op : Op) (h : SessInv b.sessions) :
    SessInv (applyOp b op).sessions := by
  cases op with
  | rawCreate k m ms now =>
      cases hc : createSession b.sessions k m ms now with
      | ok v =>
          obtain ⟨s, st⟩ := v
          simp only [applyOp, hc]
          exact sessInv_create h hc
      | error e => simp only [applyOp, hc]; exact h
  | rawEnd k now => simpa [applyOp] using sessInv_end h
  | rawEndByMonitor ms now => simpa [applyOp] using sessInv_endByMonitor h
  | regKiosk conn now => simpa [applyOp] using sessInv_regKiosk h
  | regMonitor conn now => simpa [applyOp] using sessInv_regMonitor h
  | startMon conn k now => simpa [applyOp] using sessInv_startMon h
  | stopMon conn k now => simpa [applyOp] using sessInv_stopMon h
  | signal conn kind targetId sp now live => simpa [applyOp] using sessInv_signal h
  | heartbeat conn now => simpa [applyOp] using sessInv_heartbeat h
  | crewOn conn p now iso =>
      simpa [applyOp, handleCrewSignOn] using sessInv_crew h
  | crewOff conn p now iso =>
      simpa [applyOp, handleCrewSignOff] using sessInv_crew h
  | disc conn now => simpa [applyOp] using sessInv_disconnect h

theorem sessInv_foldl (ops : List Op) :
    ∀ b : Broker, SessInv b.sessions → SessInv (ops.foldl applyOp b).sessions := by
  induction ops with
  | nil => intro b h; simpa using h
  | cons op rest ih =>
      intro b h
      simpa [List.foldl_cons] using ih (applyOp b op) (sessInv_applyOp op h)

/-- Every broker state reachable from the empty broker by raw session
operations and controller handlers satisfies the session invariant. -/
theorem sessInv_runOps (ops : List Op) : SessInv (runOps ops).sessions := by
  unfold runOps
  exact sessInv_foldl ops Broker.init (by constructor <;> simp [Broker.init])

theorem hasSessionKey_append_self (st : SessionStore) (k : String) (d : Session) :
    hasSessionKey (st ++ [(k, d)]) k = true := by
  unfold hasSessionKey lookupSession
  rw [List.find?_append]
  cases hf : st.find? (fun e => e.1 == k) with
  | some e => simp [hf]
  | none => simp [hf, List.find?]

theorem createSession_ok_shape {st : SessionStore} {k m ms : String} {now : Nat}
    {s : Session} {st' : SessionStore}
    (hc : createSession st k m ms now = .ok (s, st')) :
    k ≠ "" ∧ m ≠ "" ∧ ms ≠ "" ∧ hasSessionKey st k = false ∧
    s = { kioskId := k, monitorId := m, monitorSocketId := ms, startedAt := now
          lastActivityAt := now, status := .active, endedAt := none } ∧
    st' = st ++ [(k, s)] := by
  unfold createSession at hc
  split at hc
  · simp at hc
  · rename_i hne
    split at hc
    · simp at hc
    · rename_i hhas
      simp only [Except.ok.injEq, Prod.mk.injEq] at hc
      obtain ⟨hs, hst⟩ := hc
      push_neg at hne
      refine ⟨hne.1, hne.2.1, hne.2.2, by simpa using hhas, hs.symm, ?_⟩
      rw [← hst, hs]

/-- C1: for every producerId the session store keys at most one active
session at every reachable observable point (keys of the producer-keyed
map are unique along any run of raw store calls and controller
handlers); `createSession` throws whenever the map already keys the
kiosk, so a second `createSession` for the same kiosk without an
intervening `endSession` always fails. -/
theorem session_exclusivity :
    (∀ ops : List Op, ((runOps ops).sessions.map Prod.fst).Nodup)
    ∧ (∀ (st : SessionStore) (k m ms : String) (now : Nat),
        (lookupSession st k).isSome = true →
        ∃ msg, createSession st k m ms now = Except.error msg)
    ∧ (∀ (st : SessionStore) (k m ms : String) (now : Nat) (s : Session)
        (st' : SessionStore),
        createSession st k m ms now = Except.ok (s, st') →
        ∀ (m2 ms2 : String) (now2 : Nat), m2 ≠ "" → ms2 ≠ "" →
          createSession st' k m2 ms2 now2 =
            Except.error ("Session already exists for kiosk: " ++ k)) := by
  refine ⟨fun ops => (sessInv_runOps ops).nodup, ?_, ?_⟩
  · intro st k m ms now hsome
    unfold createSession
    split
    · exact ⟨_, rfl⟩
    · refine ⟨"Session already exists for kiosk: " ++ k, ?_⟩
      simp [hasSessionKey, hsome]
  · intro st k m ms now s st' hc m2 ms2 now2 hm2 hms2
    obtain ⟨hk, _, _, _, _, hst⟩ := createSession_ok_shape hc
    unfold createSession
    split
    · rename_i hor
      rcases hor with h | h | h
      · exact absurd h hk
      · exact absurd h hm2
      · exact absurd h hms2
    · rw [hst]
      simp [hasSessionKey_append_self]

/-- Witness for C1: creating a session for `K1` in the empty store
succeeds, and an immediate second `createSession` for `K1` fails with
the exists-error; a store keying `K1` rejects any `createSession` for
`K1`. -/
theorem session_exclusivity_witness :
    createSession [("K1", sessK1)] "K1" "M2" "S2" 9 =
      Except.error ("Session already exists for kiosk: " ++ "K1") ∧
    ∃ msg, createSession [("K1", sessK1)] "K1" "M1" "S1" 5 =
      Except.error msg := by
  constructor
  · exact session_exclusivity.2.2 [] "K1" "M1" "S1" 3 sessK1 [("K1", sessK1)]
      (by rfl) "M2" "S2" 9 (by decide) (by decide)
  · exact session_exclusivity.2.1 [("K1", sessK1)] "K1" "M1" "S1" 5 (by rfl)

theorem hasActive_eq_isSome {st : SessionStore}
    (hact : ∀ e ∈ st, e.2.status = SessStatus.active)
    (hne : ∀ e ∈ st, e.1 ≠ "") (k : String) :
    hasActiveSession st k = (lookupSession st k).isSome := by
  unfold hasActiveSession
  by_cases hk : k = ""
  · subst hk
    cases hl : lookupSession st "" with
    | none => simp [hl]
    | some s => exact absurd rfl (hne _ (lookupSession_mem hl))
  · simp only [hk, if_false]
    cases hl : lookupSession st k with
    | none => simp [hl]
    | some s =>
        have := hact _ (lookupSession_mem hl)
        simp only at this
        simp [hl, this]

/-- C10: every session present in the map has status `active`
(`createSession` only inserts active sessions, `endSession` deletes the
entry and marks `ended` only on the returned copy), so
`hasActiveSession` is true exactly when the map contains the key and
`createSession`'s mere-existence check (`sessions.has`) coincides with
the active-session check. -/
theorem stored_sessions_always_active :
    (∀ ops : List Op, ∀ e ∈ (runOps ops).sessions, e.2.status = SessStatus.active)
    ∧ (∀ st : SessionStore,
        (∀ e ∈ st, e.2.status = SessStatus.active) → (∀ e ∈ st, e.1 ≠ "") →
        ∀ k, hasActiveSession st k = (lookupSession st k).isSome)
    ∧ (∀ st : SessionStore,
        (∀ e ∈ st, e.2.status = SessStatus.active) → (∀ e ∈ st, e.1 ≠ "") →
        ∀ k, hasSessionKey st k = hasActiveSession st k) := by
  refine ⟨fun ops => (sessInv_runOps ops).active, ?_, ?_⟩
  · intro st hact hne k
    exact hasActive_eq_isSome hact hne k
  · intro st hact hne k
    rw [hasActive_eq_isSome hact hne k]
    rfl

/-- Witness for C10: in a store holding the single active session
`sessK1`, `hasActiveSession` agrees with key membership and with
`sessions.has` at both a present and an absent key. -/
theorem stored_sessions_always_active_witness :
    hasActiveSession [("K1", sessK1)] "K1" =
      (lookupSession [("K1", sessK1)] "K1").isSome ∧
    hasSessionKey [("K1", sessK1)] "K9" =
      hasActiveSession [("K1", sessK1)] "K9" := by
  constructor
  · exact stored_sessions_always_active.2.1 [("K1", sessK1)]
      (by decide) (by decide) "K1"
  · exact stored_sessions_always_active.2.2 [("K1", sessK1)]
      (by decide) (by decide) "K9"

/-- C9: `getTimedOutSessions` returns exactly the stored sessions with
`status = active` and `now - lastActivityAt` strictly greater than the
threshold (the boundary `now - lastActivityAt = threshold` is
excluded), each copied with the map key as `kioskId`; the function only
reads the store (it is a pure function of it and performs no writes). -/
theorem getTimedOutSessions_spec :
    ∀ (st : SessionStore) (now timeoutMs : Nat) (x : Session),
      x ∈ getTimedOutSessions st now timeoutMs ↔
        ∃ e ∈ st, e.2.status = SessStatus.active ∧
          (now : Int) - (e.2.lastActivityAt : Int) > (timeoutMs : Int) ∧
          x = { e.2 with kioskId := e.1 } := by
  intro st now timeoutMs x
  unfold getTimedOutSessions
  rw [List.mem_filterMap]
  constructor
  · rintro ⟨e, he, heq⟩
    by_cases hcond : e.2.status = SessStatus.active ∧
        (now : Int) - (e.2.lastActivityAt : Int) > (timeoutMs : Int)
    · rw [if_pos hcond] at heq
      exact ⟨e, he, hcond.1, hcond.2, (Option.some.inj heq).symm⟩
    · rw [if_neg hcond] at heq
      exact absurd heq (by simp)
  · rintro ⟨e, he, hstat, hto, hx⟩
    refine ⟨e, he, ?_⟩
    rw [if_pos ⟨hstat, hto⟩, hx]

/-- C6: evaluation of the disconnect handler at the failing input.
Monitor `M1` (socket `S1`) owns two active sessions (kiosks `K1` and
`K2`).  After `M1`'s disconnect completes, the monitor registry entry
and the rate counters are gone, but `endSessionByMonitorSocket` ended
only the first matching session: the session for `K2` - still keyed to
the disconnected socket `S1` - remains in the store, contradicting the
claim that no broker state retains the disconnected client's
identifiers. -/
theorem monitor_disconnect_leaves_session :
    (handleDisconnect brokerD connM1 99).2.sessions = [("K2", sessK2)] ∧
    sessK2.monitorSocketId = connM1.socketId ∧
    sessK2.monitorId = connM1.clientId ∧
    (handleDisconnect brokerD connM1 99).2.monitors = [] ∧
    (handleDisconnect brokerD connM1 99).2.rate = [] := by
  refine ⟨by rfl, by rfl, by rfl, by rfl, by rfl⟩

/-- C4 (counterexample): a `heartbeat-ping` from a KIOSK-role connection
that never registered (`K1` absent from the kiosk registry) is NOT
rejected: the handler creates the heartbeat entry and sends
`heartbeat-pong`, contradicting the claim that unregistered heartbeat
messages yield a typed error and have no effect. -/
theorem unregistered_heartbeat_accepted :
    (handleHeartbeatPing Broker.init connK1 50).1 = HeartbeatResult.pong ∧
    (handleHeartbeatPing Broker.init connK1 50).2.heartbeats = [("K1", 50)] ∧
    getKiosk Broker.init.kiosks "K1" = none := ⟨rfl, rfl, rfl⟩

/-- C4 (amended): crew events do check sender registration - from an
unregistered kiosk they yield `CLIENT_NOT_REGISTERED` and leave the
broker unchanged - but `heartbeat-ping` has no registration check: any
KIOSK-role connection with a non-empty clientId gets its heartbeat
entry created/refreshed and a `heartbeat-pong`, the kiosk registry
untouched when the kiosk is unregistered. -/
theorem unregistered_message_handling :
    (∀ (b : Broker) (conn : Conn) (p : CrewPayload) (now : Nat) (iso : String),
        conn.role = Role.kiosk →
        getKiosk b.kiosks conn.clientId = none →
        handleCrewSignOn b conn p now iso =
          (CrewResult.err ECode.CLIENT_NOT_REGISTERED, b) ∧
        handleCrewSignOff b conn p now iso =
          (CrewResult.err ECode.CLIENT_NOT_REGISTERED, b))
    ∧ (∀ (b : Broker) (conn : Conn) (now : Nat),
        conn.role = Role.kiosk → conn.clientId ≠ "" →
        (handleHeartbeatPing b conn now).1 = HeartbeatResult.pong ∧
        (handleHeartbeatPing b conn now).2.heartbeats =
          setEntry b.heartbeats conn.clientId now ∧
        (getKiosk b.kiosks conn.clientId = none →
          (handleHeartbeatPing b conn now).2.kiosks = b.kiosks)) := by
  constructor
  · intro b conn p now iso hrole hreg
    constructor <;>
      simp [handleCrewSignOn, handleCrewSignOff, handleCrewEvent, hrole, hreg]
  · intro b conn now hrole hne
    have hping : processHeartbeatPing b.heartbeats conn.clientId now =
        (true, setEntry b.heartbeats conn.clientId now) := by
      simp [processHeartbeatPing, hne]
    refine ⟨?_, ?_, ?_⟩
    · simp [handleHeartbeatPing, hrole, hping]
    · simp [handleHeartbeatPing, hrole, hping]
    · intro hreg
      have hf : b.kiosks.find? (fun e => e.1 == conn.clientId) = none := by
        unfold getKiosk at hreg
        rw [if_neg hne] at hreg
        cases hf : b.kiosks.find? (fun e => e.1 == conn.clientId) with
        | none => rfl
        | some e => rw [hf] at hreg; simp at hreg
      simp [handleHeartbeatPing, hrole, hping, updateLastSeen, hne, hf]

/-- Witness for the amended C4: at the empty broker, a crew-sign-on
from the unregistered kiosk `K1` is rejected with
`CLIENT_NOT_REGISTERED` and no state change, while its heartbeat-ping
is answered with a pong. -/
theorem unregistered_message_handling_witness :
    handleCrewSignOn Broker.init connK1
      { employeeId := "E1", name := "N", kioskId := "K1", timestamp := "T" } 7 "iso" =
      (CrewResult.err ECode.CLIENT_NOT_REGISTERED, Broker.init) ∧
    (handleHeartbeatPing Broker.init connK1 50).1 = HeartbeatResult.pong := by
  constructor
  · exact (unregistered_message_handling.1 Broker.init connK1
      { employeeId := "E1", name := "N", kioskId := "K1", timestamp := "T" }
      7 "iso" rfl rfl).1
  · exact (unregistered_message_handling.2 Broker.init connK1 50 rfl
      (by decide)).1

theorem endSession_of_lookup_some {st : SessionStore} {k : String} {now : Nat}
    {s : Session} (hk : k ≠ "") (hl : lookupSession st k = some s) :
    endSession st k now =
      (some { s with endedAt := some now, status := .ended }, deleteSession st k) := by
  unfold endSession
  rw [if_neg hk, hl]

theorem endSession_of_lookup_none {st : SessionStore} {k : String} {now : Nat}
    (hl : lookupSession st k = none) : endSession st k now = (none, st) := by
  unfold endSession
  split
  · rfl
  · rw [hl]

theorem lookupSession_delete_self (st : SessionStore) (k : String) :
    lookupSession (deleteSession st k) k = none := by
  apply lookupSession_eq_none.mpr
  intro e he
  have h := List.mem_filter.mp he
  simpa using h.2

/-- C8: from the owning monitor, `stop-monitoring` succeeds (replies
`monitoring-stopped` and removes the session), and an immediately
repeated `stop-monitoring` for the same kiosk from the same connection
yields `SESSION_NOT_FOUND` with the state unchanged; `endSession`
removes and returns the session on the first call and returns null on a
miss leaving the store unchanged. -/
theorem stop_monitoring_twice :
    (∀ (b : Broker) (conn : Conn) (k : String) (now1 now2 : Nat) (s : Session),
      conn.role = Role.monitor → k ≠ "" → conn.socketId ≠ "" →
      lookupSession b.sessions k = some s →
      s.status = SessStatus.active →
      s.monitorSocketId = conn.socketId →
      (handleStopMonitoring b conn k now1).1 = StopReply.stopped k ∧
      (handleStopMonitoring b conn k now1).2.sessions = deleteSession b.sessions k ∧
      (handleStopMonitoring (handleStopMonitoring b conn k now1).2 conn k now2).1 =
        StopReply.err ECode.SESSION_NOT_FOUND ∧
      (handleStopMonitoring (handleStopMonitoring b conn k now1).2 conn k now2).2 =
        (handleStopMonitoring b conn k now1).2)
    ∧ (∀ (st : SessionStore) (k : String) (now : Nat) (s : Session), k ≠ "" →
        lookupSession st k = some s →
        endSession st k now =
          (some { s with endedAt := some now, status := SessStatus.ended },
           deleteSession st k))
    ∧ (∀ (st : SessionStore) (k : String) (now : Nat),
        lookupSession st k = none → endSession st k now = (none, st)) := by
  refine ⟨?_, fun st k now s hk hl => endSession_of_lookup_some hk hl,
    fun st k now hl => endSession_of_lookup_none hl⟩
  intro b conn k now1 now2 s hrole hk hsock hl hstat hms
  have hhas : hasActiveSession b.sessions k = true := by
    unfold hasActiveSession
    simp [hk, hl, hstat]
  have hown : validateSessionOwnership b.sessions k conn.socketId = true := by
    unfold validateSessionOwnership
    rw [if_neg (by simp [hk, hsock]), hl]
    simp [hstat, hms]
  have h1 : handleStopMonitoring b conn k now1 =
      (StopReply.stopped k, { b with sessions := deleteSession b.sessions k }) := by
    unfold handleStopMonitoring
    rw [if_neg (by simp [hrole]), if_neg hk, if_neg (by simp [hhas]),
      if_neg (by simp [hown])]
    rw [endSession_of_lookup_some hk hl]
  have hhas2 : hasActiveSession (deleteSession b.sessions k) k = false := by
    unfold hasActiveSession
    simp [hk, lookupSession_delete_self]
  have h2 : handleStopMonitoring { b with sessions := deleteSession b.sessions k }
      conn k now2 =
      (StopReply.err ECode.SESSION_NOT_FOUND,
       { b with sessions := deleteSession b.sessions k }) := by
    unfold handleStopMonitoring
    rw [if_neg (by simp [hrole]), if_neg hk, if_pos (by simp [hhas2])]
  rw [h1, h2]
  exact ⟨rfl, rfl, rfl, rfl⟩

/-- Witness for C8: in `brokerA` (monitor `M1` on socket `S1` owns the
session for `K1`), stopping twice yields `monitoring-stopped` then
`SESSION_NOT_FOUND`. -/
theorem stop_monitoring_twice_witness :
    (handleStopMonitoring brokerA connM1 "K1" 10).1 = StopReply.stopped "K1" ∧
    (handleStopMonitoring (handleStopMonitoring brokerA connM1 "K1" 10).2
      connM1 "K1" 11).1 = StopReply.err ECode.SESSION_NOT_FOUND := by
  have h := stop_monitoring_twice.1 brokerA connM1 "K1" 10 11 sessK1
    rfl (by decide) (by decide) rfl rfl rfl
  exact ⟨h.1, h.2.2.1⟩

/-- C2 (counterexample): in `brokerB` the only active session pairs
kiosk `K1` with monitor `M1` (socket `S1`), yet the kiosk-side `offer`
handler forwards `K1`'s offer to the *other* registered monitor `M2`
(socket `S2`): the handler checks only that the sender's kiosk has an
active session, never that the named target is that session's monitor.
At the instant of forwarding there is no active session whose endpoints
are the sender `K1` and the target `M2`. -/
theorem signal_forward_counterexample :
    (handleSignal brokerB connK1 "offer" "M2" true 100 ["S1", "S2", "KS1"]).1 =
      SignalResult.forwarded "S2" "K1" ∧
    brokerB.sessions = [("K1", sessK1)] ∧
    sessK1.monitorId = "M1" ∧ sessK1.monitorSocketId = "S1" ∧
    getMonitor brokerB.monitors "M2" = some monitorEntryM2 ∧
    monitorEntryM2.socketId = "S2" := by
  exact ⟨by rfl, by rfl, by rfl, by rfl, by rfl, by rfl⟩

theorem hasActiveSession_spec {st : SessionStore} {k : String}
    (h : hasActiveSession st k = true) :
    k ≠ "" ∧ ∃ s, lookupSession st k = some s ∧ s.status = SessStatus.active := by
  unfold hasActiveSession at h
  split at h
  · simp at h
  · rename_i hk
    cases hl : lookupSession st k with
    | none => rw [hl] at h; simp at h
    | some s =>
        rw [hl] at h
        simp only [beq_iff_eq] at h
        exact ⟨hk, s, rfl, h⟩

/-- C2 (amended): whenever a signaling handler forwards, the forwarded
`fromId` is the authenticated sender, and an active session involving
the sender exists at that instant: for a MONITOR sender the session
keyed by `targetId` has `monitorSocketId` equal to the sender's
connection (endpoints are exactly sender and target); for a KIOSK
sender the session keyed by the sender's clientId is active and names
the sender as its kiosk, but the named target monitor need not be the
session's monitor. -/
theorem signal_forward_session_endpoints :
    ∀ (b : Broker) (conn : Conn) (kind targetId : String) (sp : Bool)
      (now : Nat) (live : List String) (ts fid : String),
      (handleSignal b conn kind targetId sp now live).1 =
        SignalResult.forwarded ts fid →
      fid = conn.clientId ∧
      (conn.role = Role.monitor →
        ∃ s, lookupSession b.sessions targetId = some s ∧
          s.status = SessStatus.active ∧ s.monitorSocketId = conn.socketId) ∧
      (conn.role = Role.kiosk →
        ∃ s, lookupSession b.sessions conn.clientId = some s ∧
          s.status = SessStatus.active ∧ s.kioskId = conn.clientId) := by
  intro b conn kind targetId sp now live ts fid h
  unfold handleSignal at h
  dsimp only at h
  by_cases h1 : targetId ≠ "" ∧ sp = true
  · rw [if_neg (not_not_intro h1)] at h
    by_cases h2 : (checkRateLimit b.rate conn.clientId kind none now).1.allowed = true
    · rw [if_neg (not_not_intro h2)] at h
      by_cases h3 : (getKiosk b.kiosks targetId).isNone = true ∧
          (getMonitor b.monitors targetId).isNone = true
      · rw [if_pos h3] at h
        simp at h
      · rw [if_neg h3] at h
        by_cases h4 : (conn.role = Role.kiosk ∧
              (if (getKiosk b.kiosks targetId).isSome = true then Role.kiosk
               else Role.monitor) = Role.monitor) ∨
            (conn.role = Role.monitor ∧
              (if (getKiosk b.kiosks targetId).isSome = true then Role.kiosk
               else Role.monitor) = Role.kiosk)
        · rw [if_neg (not_not_intro h4)] at h
          by_cases h5 : hasActiveSession b.sessions
              (if conn.role = Role.kiosk then conn.clientId else targetId) = true
          · rw [if_neg (by simpa using h5)] at h
            obtain ⟨hkne, s0, hl0, hstat0⟩ := hasActiveSession_spec h5
            cases hg : getSession b.sessions
                (if conn.role = Role.kiosk then conn.clientId else targetId) with
            | none =>
                rw [hg] at h
                simp at h
            | some session =>
                rw [hg] at h
                dsimp only at h
                have hsession : session = s0 := by
                  unfold getSession at hg
                  rw [if_neg hkne, hl0] at hg
                  exact (Option.some.inj hg).symm
                rw [← hsession] at hl0 hstat0
                by_cases h7 : conn.role = Role.monitor ∧
                    session.monitorSocketId ≠ conn.socketId
                · rw [if_pos h7] at h
                  simp at h
                · rw [if_neg h7] at h
                  by_cases h8 : conn.role ≠ Role.monitor ∧
                      session.kioskId ≠ conn.clientId
                  · rw [if_pos h8] at h
                    simp at h
                  · rw [if_neg h8] at h
                    by_cases h9 : (match getKiosk b.kiosks targetId with
                        | some k => k.socketId
                        | none => ((getMonitor b.monitors targetId).map
                            (·.socketId)).getD "") ∈ live
                    · rw [if_pos h9] at h
                      simp only [SignalResult.forwarded.injEq] at h
                      refine ⟨h.2.symm, ?_, ?_⟩
                      · intro hrole
                        have hifm : (if conn.role = Role.kiosk then conn.clientId
                            else targetId) = targetId := by
                          rw [if_neg (by simp [hrole])]
                        rw [hifm] at hl0
                        refine ⟨session, hl0, hstat0, ?_⟩
                        by_contra hne
                        exact h7 ⟨hrole, hne⟩
                      · intro hrole
                        have hifk : (if conn.role = Role.kiosk then conn.clientId
                            else targetId) = conn.clientId := by
                          rw [if_pos hrole]
                        rw [hifk] at hl0
                        refine ⟨session, hl0, hstat0, ?_⟩
                        by_contra hne
                        exact h8 ⟨by simp [hrole], hne⟩
                    · rw [if_neg h9] at h
                      simp at h
          · rw [if_pos (by simpa using h5)] at h
            simp at h
        · rw [if_pos h4] at h
          simp at h
    · rw [if_pos (by simpa using h2)] at h
      simp at h
  · rw [if_pos h1] at h
    simp at h

/-- Witness for the amended C2: in `brokerB`, monitor `M1` forwarding
an offer to `K1` implies the active session for `K1` is owned by
`M1`'s socket. -/
theorem signal_forward_session_endpoints_witness :
    ∃ s, lookupSession brokerB.sessions "K1" = some s ∧
      s.status = SessStatus.active ∧ s.monitorSocketId = connM1.socketId := by
  have h := signal_forward_session_endpoints brokerB connM1 "offer" "K1" true 100
    ["KS1"] "KS1" "M1" (by rfl)
  exact h.2.1 rfl

theorem lookupSession_cons (e : String × Session) (rest : SessionStore) (k : String) :
    lookupSession (e :: rest) k =
      if e.1 = k then some e.2 else lookupSession rest k := by
  unfold lookupSession
  by_cases hek : e.1 = k
  · rw [List.find?_cons_of_pos _ (by simpa using hek), if_pos hek]
    rfl
  · rw [List.find?_cons_of_neg _ (by simpa using hek), if_neg hek]

theorem lookupSession_append_single {l1 : SessionStore} {k : String} (d : Session)
    (h : lookupSession l1 k = none) : lookupSession (l1 ++ [(k, d)]) k = some d := by
  induction l1 with
  | nil => simp [lookupSession_cons]
  | cons e rest ih =>
      rw [List.cons_append, lookupSession_cons]
      rw [lookupSession_cons] at h
      by_cases hek : e.1 = k
      · rw [if_pos hek] at h
        simp at h
      · rw [if_neg hek] at h ⊢
        exact ih h

theorem lookupSession_mapActivity (l : SessionStore) (k : String) (now : Nat) :
    lookupSession
        (l.map fun e => if e.1 == k then (e.1, { e.2 with lastActivityAt := now }) else e) k =
      (lookupSession l k).map (fun s => { s with lastActivityAt := now }) := by
  induction l with
  | nil => rfl
  | cons e rest ih =>
      rw [List.map_cons]
      dsimp only
      by_cases hek : e.1 = k
      · rw [if_pos (by simpa using hek)]
        rw [lookupSession_cons, lookupSession_cons, if_pos hek]
        simp [hek]
      · rw [if_neg (by simpa using hek)]
        rw [lookupSession_cons, lookupSession_cons, if_neg hek, if_neg hek]
        exact ih

theorem filterKey_map_length (l : SessionStore) (k : String) (now : Nat) :
    ((l.map fun e => if e.1 == k then (e.1, { e.2 with lastActivityAt := now }) else e).filter
        (fun e => e.1 == k)).length =
      (l.filter (fun e => e.1 == k)).length := by
  rw [← List.countP_eq_length_filter, ← List.countP_eq_length_filter,
    List.countP_map]
  apply List.countP_congr
  intro e _
  by_cases hek : e.1 = k
  · simp [Function.comp, hek]
  · simp [Function.comp, hek]

theorem filterKey_nil_of_lookup_none {l : SessionStore} {k : String}
    (h : lookupSession l k = none) : l.filter (fun e => e.1 == k) = [] := by
  induction l with
  | nil => rfl
  | cons e rest ih =>
      rw [lookupSession_cons] at h
      by_cases hek : e.1 = k
      · rw [if_pos hek] at h
        simp at h
      · rw [if_neg hek] at h
        have hb : (e.1 == k) = false := by simpa using hek
        rw [List.filter_cons]
        simp only [hb, Bool.false_eq_true, if_false]
        exact ih h

/-- C7: `start-monitoring` is idempotent for the session owner: with
kiosk `k` online and no session yet, the same monitor connection
issuing `start-monitoring` twice receives `monitoring-started` both
times (the second is an activity refresh, not an error), and the store
ends up with exactly one session for `k` - same `startedAt` (the first
call's time), same owner, `lastActivityAt` refreshed to the second
call's time. -/
theorem start_monitoring_idempotent :
    ∀ (b : Broker) (conn : Conn) (k : String) (now1 now2 : Nat),
      conn.role = Role.monitor →
      k ≠ "" → conn.clientId ≠ "" → conn.socketId ≠ "" →
      isKioskOnline b.kiosks k = true →
      lookupSession b.sessions k = none →
      (handleStartMonitoring b conn k now1).1 =
        StartReply.started k k (some now1) ∧
      (handleStartMonitoring (handleStartMonitoring b conn k now1).2 conn k now2).1 =
        StartReply.started k k none ∧
      lookupSession (handleStartMonitoring (handleStartMonitoring b conn k now1).2
          conn k now2).2.sessions k =
        some { mkSession k conn.clientId conn.socketId now1 with
               lastActivityAt := now2 } ∧
      ((handleStartMonitoring (handleStartMonitoring b conn k now1).2
          conn k now2).2.sessions.filter (fun e => e.1 == k)).length = 1 := by
  intro b conn k now1 now2 hrole hk hcid hsock honline hl
  have hhas : hasActiveSession b.sessions k = false := by
    unfold hasActiveSession
    simp [hk, hl]
  have hc : createSession b.sessions k conn.clientId conn.socketId now1 =
      .ok (mkSession k conn.clientId conn.socketId now1,
           b.sessions ++ [(k, mkSession k conn.clientId conn.socketId now1)]) := by
    unfold createSession
    rw [if_neg (by simp [hk, hcid, hsock])]
    rw [if_neg (by unfold hasSessionKey; simp [hl])]
    rfl
  have h1 : handleStartMonitoring b conn k now1 =
      (StartReply.started k k (some now1),
       { b with sessions :=
          b.sessions ++ [(k, mkSession k conn.clientId conn.socketId now1)] }) := by
    unfold handleStartMonitoring
    rw [if_neg (by simp [hrole]), if_neg hk, if_neg (not_not_intro honline),
      if_neg (by simp [hhas]), hc]
    rfl
  have hl1 : lookupSession
      (b.sessions ++ [(k, mkSession k conn.clientId conn.socketId now1)]) k =
      some (mkSession k conn.clientId conn.socketId now1) :=
    lookupSession_append_single _ hl
  have hhas1 : hasActiveSession
      (b.sessions ++ [(k, mkSession k conn.clientId conn.socketId now1)]) k = true := by
    unfold hasActiveSession
    rw [if_neg hk, hl1]
    rfl
  have hget1 : getSession
      (b.sessions ++ [(k, mkSession k conn.clientId conn.socketId now1)]) k =
      some (mkSession k conn.clientId conn.socketId now1) := by
    unfold getSession
    rw [if_neg hk]
    exact hl1
  have h2 : handleStartMonitoring
      ({ b with sessions :=
          b.sessions ++ [(k, mkSession k conn.clientId conn.socketId now1)] })
      conn k now2 =
      (StartReply.started k k none,
       { b with sessions := (List.map (fun e =>
            if e.1 == k then (e.1, { e.2 with lastActivityAt := now2 }) else e)
          (b.sessions ++ [(k, mkSession k conn.clientId conn.socketId now1)])) }) := by
    unfold handleStartMonitoring
    rw [if_neg (by simp [hrole]), if_neg hk, if_neg (not_not_intro honline),
      if_pos hhas1, hget1]
    dsimp only
    rw [if_neg (by simp [mkSession])]
    unfold updateSessionActivity
    rw [if_neg hk, hl1]
  rw [h1]
  dsimp only
  rw [h2]
  dsimp only
  refine ⟨rfl, rfl, ?_, ?_⟩
  · rw [lookupSession_mapActivity, hl1]
    rfl
  · rw [filterKey_map_length, List.filter_append,
      filterKey_nil_of_lookup_none hl]
    simp

/-- Witness for C7: in `brokerC` (kiosk `K1` online, no session),
monitor `M1` starting twice gets two `monitoring-started` replies and
exactly one stored session with `startedAt` of the first call. -/
theorem start_monitoring_idempotent_witness :
    (handleStartMonitoring brokerC connM1 "K1" 5).1 =
      StartReply.started "K1" "K1" (some 5) ∧
    (handleStartMonitoring (handleStartMonitoring brokerC connM1 "K1" 5).2
      connM1 "K1" 7).1 = StartReply.started "K1" "K1" none ∧
    ((handleStartMonitoring (handleStartMonitoring brokerC connM1 "K1" 5).2
      connM1 "K1" 7).2.sessions.filter (fun e => e.1 == "K1")).length = 1 := by
  have h := start_monitoring_idempotent brokerC connM1 "K1" 5 7
    rfl (by decide) (by decide) (by decide) rfl rfl
  exact ⟨h.1, h.2.1, h.2.2.2⟩

theorem crewEvent_ok_kioskId {b : Broker} {conn : Conn} {en : String}
    {p : CrewPayload} {now : Nat} {iso : String} {bc : CrewEventData} {ack : String}
    (h : (handleCrewEvent b conn en p now iso).1 = CrewResult.ok bc ack) :
    bc.kioskId = conn.clientId := by
  unfold handleCrewEvent at h
  dsimp only at h
  by_cases h1 : conn.role ≠ Role.kiosk
  · rw [if_pos h1] at h
    simp at h
  · rw [if_neg h1] at h
    by_cases h2 : (getKiosk b.kiosks conn.clientId).isNone = true
    · rw [if_pos h2] at h
      simp at h
    · rw [if_neg h2] at h
      by_cases h3 : (checkRateLimit b.rate conn.clientId en none now).1.allowed = true
      · rw [if_neg (not_not_intro h3)] at h
        by_cases h4 : validCrewPayload p = true
        · rw [if_neg (not_not_intro h4)] at h
          simp only [CrewResult.ok.injEq] at h
          rw [← h.1]
        · rw [if_pos (by simpa using h4)] at h
          simp at h
      · rw [if_pos (by simpa using h3)] at h
        simp at h

theorem crewEvent_payload_independence {b : Broker} {conn : Conn} {en : String}
    {p1 p2 : CrewPayload} {now : Nat} {iso : String}
    (he : p1.employeeId = p2.employeeId) (hn : p1.name = p2.name)
    (ht : p1.timestamp = p2.timestamp) (hk1 : p1.kioskId ≠ "") (hk2 : p2.kioskId ≠ "") :
    handleCrewEvent b conn en p1 now iso = handleCrewEvent b conn en p2 now iso := by
  obtain ⟨e1, n1, k1, t1⟩ := p1
  obtain ⟨e2, n2, k2, t2⟩ := p2
  simp only at he hn ht hk1 hk2
  subst he
  subst hn
  subst ht
  have hv : validCrewPayload ⟨e1, n1, k1, t1⟩ = validCrewPayload ⟨e1, n1, k2, t1⟩ := by
    have h1 : (k1 != "") = true := by simpa using hk1
    have h2 : (k2 != "") = true := by simpa using hk2
    simp [validCrewPayload, h1, h2]
  unfold handleCrewEvent
  rw [hv]

/-- C3: the broadcast attribution of crew events is authoritative and
independent of the client-supplied id: whenever `crew-sign-on` or
`crew-sign-off` broadcasts, the broadcast payload's `kioskId` equals
the sender's authenticated `clientId`, and two runs whose payloads
differ only in the client-supplied `kioskId` (both passing the
non-empty-string validation) produce identical handler results. -/
theorem crew_attribution :
    (∀ (b : Broker) (conn : Conn) (p : CrewPayload) (now : Nat) (iso : String)
        (bc : CrewEventData) (ack : String),
        ((handleCrewSignOn b conn p now iso).1 = CrewResult.ok bc ack →
          bc.kioskId = conn.clientId) ∧
        ((handleCrewSignOff b conn p now iso).1 = CrewResult.ok bc ack →
          bc.kioskId = conn.clientId))
    ∧ (∀ (b : Broker) (conn : Conn) (p1 p2 : CrewPayload) (now : Nat) (iso : String),
        p1.employeeId = p2.employeeId → p1.name = p2.name →
        p1.timestamp = p2.timestamp → p1.kioskId ≠ "" → p2.kioskId ≠ "" →
        handleCrewSignOn b conn p1 now iso = handleCrewSignOn b conn p2 now iso ∧
        handleCrewSignOff b conn p1 now iso = handleCrewSignOff b conn p2 now iso) := by
  constructor
  · intro b conn p now iso bc ack
    exact ⟨fun h => crewEvent_ok_kioskId h, fun h => crewEvent_ok_kioskId h⟩
  · intro b conn p1 p2 now iso he hn ht hk1 hk2
    exact ⟨crewEvent_payload_independence he hn ht hk1 hk2,
      crewEvent_payload_independence he hn ht hk1 hk2⟩

/-- Witness for C3: registered kiosk `K1` sending a crew-sign-on whose
payload claims `kioskId = "PRODUCER_B"` broadcasts `kioskId = "K1"`,
and the run is identical to one claiming `kioskId = "K9"`. -/
theorem crew_attribution_witness :
    handleCrewSignOn brokerA connK1
      { employeeId := "E1", name := "N", kioskId := "PRODUCER_B", timestamp := "T" }
      0 "iso" =
    handleCrewSignOn brokerA connK1
      { employeeId := "E1", name := "N", kioskId := "K9", timestamp := "T" }
      0 "iso" ∧
    ({ employeeId := "E1", name := "N", timestamp := "T", kioskId := "K1"
       eventType := "crew-sign-on" } : CrewEventData).kioskId = connK1.clientId := by
  constructor
  · exact (crew_attribution.2 brokerA connK1
      { employeeId := "E1", name := "N", kioskId := "PRODUCER_B", timestamp := "T" }
      { employeeId := "E1", name := "N", kioskId := "K9", timestamp := "T" }
      0 "iso" rfl rfl rfl (by decide) (by decide)).1
  · exact ((crew_attribution.1 brokerA connK1
      { employeeId := "E1", name := "N", kioskId := "PRODUCER_B", timestamp := "T" }
      0 "iso"
      { employeeId := "E1", name := "N", timestamp := "T", kioskId := "K1"
        eventType := "crew-sign-on" } "E1").1) (by rfl)

theorem defaultLimit_pos (k : String) : 0 < defaultLimit k := by
  unfold defaultLimit
  repeat' split
  all_goals norm_num

theorem lookup_set_replace {α : Type} (k : String) (v : α) :
    ∀ (st : List (String × α)),
      (st.find? (fun e => e.1 == k)).isSome = true →
      (((st.map (fun e => if e.1 == k then (k, v) else e)).find?
          (fun e => e.1 == k)).map (·.2)) = some v := by
  intro st
  induction st with
  | nil => intro hs; simp at hs
  | cons e rest ih =>
      intro hs
      rw [List.map_cons]
      try dsimp only
      by_cases hek : e.1 = k
      · have hb : (e.1 == k) = true := by simpa using hek
        rw [if_pos hb, List.find?_cons_of_pos _ (by simp)]
        rfl
      · have hb : (e.1 == k) = false := by simpa using hek
        rw [if_neg (by simp [hek]), List.find?_cons_of_neg _ (by simpa using hek)]
        apply ih
        rw [List.find?_cons_of_neg _ (by simpa using hek)] at hs
        exact hs

theorem lookupRate_setEntry_self (st : RateStore) (k : String) (v : List Nat) :
    lookupRate (setEntry st k v) k = some v := by
  unfold setEntry lookupRate
  by_cases hs : (st.find? (fun e => e.1 == k)).isSome = true
  · rw [if_pos hs]
    exact lookup_set_replace k v st hs
  · rw [if_neg hs]
    have hf : st.find? (fun e => e.1 == k) = none := by
      cases hf : st.find? (fun e => e.1 == k) with
      | none => rfl
      | some e => rw [hf] at hs; simp at hs
    rw [List.find?_append, hf]
    simp [List.find?]

theorem lookupRate_erase_self (st : RateStore) (k : String) :
    lookupRate (st.filter (fun e => e.1 != k)) k = none := by
  unfold lookupRate
  have hf : (st.filter (fun e => e.1 != k)).find? (fun e => e.1 == k) = none := by
    rw [List.find?_eq_none]
    intro e he
    have h2 := (List.mem_filter.mp he).2
    simpa using h2
  rw [hf]
  rfl

theorem filter_length_mono {α : Type} {p q : α → Bool}
    (h : ∀ x, p x = true → q x = true) :
    ∀ l : List α, (l.filter p).length ≤ (l.filter q).length := by
  intro l
  induction l with
  | nil => simp
  | cons x xs ih =>
      rw [List.filter_cons, List.filter_cons]
      by_cases hp : p x = true
      · rw [if_pos hp, if_pos (h x hp)]
        simpa using ih
      · rw [if_neg hp]
        by_cases hq : q x = true
        · rw [if_pos hq]
          exact le_trans ih (by simp)
        · rw [if_neg hq]
          exact ih

theorem rlFilter_append (now : Nat) (l1 l2 : List Nat) :
    rlFilter now (l1 ++ l2) = rlFilter now l1 ++ rlFilter now l2 :=
  List.filter_append l1 l2

theorem rlFilter_comp {t a : Nat} (h : t ≤ a) (l : List Nat) :
    rlFilter a (rlFilter t l) = rlFilter a l := by
  unfold rlFilter
  rw [List.filter_filter]
  apply List.filter_congr
  intro x _
  by_cases hx : (x : Int) > (a : Int) - 60000
  · have hx2 : (x : Int) > (t : Int) - 60000 := by
      have hta : (t : Int) ≤ (a : Int) := by exact_mod_cast h
      omega
    simp [hx, hx2]
  · simp [hx]

theorem rlFilter_idem (now : Nat) (l : List Nat) :
    rlFilter now (rlFilter now l) = rlFilter now l :=
  rlFilter_comp le_rfl l

theorem rlStep_state_length {L : Nat} {l : List Nat} (h : l.length ≤ L) (now : Nat) :
    (rlStep L l now).2.length ≤ L := by
  by_cases hlt : (rlFilter now l).length < L
  · simp only [rlStep, if_pos hlt]
    simp only [List.length_append, List.length_singleton]
    omega
  · simp only [rlStep, if_neg hlt]
    exact le_trans (List.length_filter_le _ _) h

theorem rlRunState_length {L : Nat} :
    ∀ (ts : List Nat) (l : List Nat), l.length ≤ L →
      (rlRunState L l ts).length ≤ L := by
  intro ts
  induction ts with
  | nil => intro l h; exact h
  | cons t ts ih => intro l h; exact ih _ (rlStep_state_length h t)

theorem rlRunState_append (L : Nat) (ts : List Nat) (a : Nat) :
    ∀ l, rlRunState L l (ts ++ [a]) = (rlStep L (rlRunState L l ts) a).2 := by
  induction ts with
  | nil => intro l; rfl
  | cons t ts ih => intro l; exact ih (rlStep L l t).2

theorem rlAccepted_append (L : Nat) (ts : List Nat) (a : Nat) :
    ∀ l, rlAccepted L l (ts ++ [a]) =
      rlAccepted L l ts ++
        (if (rlStep L (rlRunState L l ts) a).1 = true then [a] else []) := by
  induction ts with
  | nil =>
      intro l
      simp [rlAccepted, rlRunState]
  | cons t ts ih =>
      intro l
      rw [List.cons_append]
      show (if (rlStep L l t).1 = true then [t] else []) ++
          rlAccepted L (rlStep L l t).2 (ts ++ [a]) = _
      rw [ih (rlStep L l t).2]
      show _ = ((if (rlStep L l t).1 = true then [t] else []) ++
          rlAccepted L (rlStep L l t).2 ts) ++ _
      rw [List.append_assoc]
      rfl

theorem rlRunState_eq_filter (L : Nat) :
    ∀ (ts : List Nat) (l : List Nat) (a : Nat),
      ts.Pairwise (· ≤ ·) → (∀ x ∈ ts, x ≤ a) →
      rlFilter a (rlRunState L l ts) = rlFilter a (l ++ rlAccepted L l ts) := by
  intro ts
  induction ts with
  | nil =>
      intro l a _ _
      simp [rlRunState, rlAccepted]
  | cons t ts ih =>
      intro l a hsort hle
      have hta : t ≤ a := hle t (by simp)
      have hts : ∀ x ∈ ts, x ≤ a := fun x hx => hle x (by simp [hx])
      have hsort2 : ts.Pairwise (· ≤ ·) := List.Pairwise.of_cons hsort
      show rlFilter a (rlRunState L (rlStep L l t).2 ts) = _
      rw [ih (rlStep L l t).2 a hsort2 hts]
      by_cases hacc : (rlFilter t l).length < L
      · have h2 : (rlStep L l t).2 = rlFilter t l ++ [t] := by
          simp only [rlStep, if_pos hacc]
        have h1 : (rlStep L l t).1 = true := by
          simp only [rlStep, if_pos hacc]
        have hAcc : rlAccepted L l (t :: ts) =
            [t] ++ rlAccepted L (rlStep L l t).2 ts := by
          show (if (rlStep L l t).1 = true then [t] else []) ++ _ = _
          rw [if_pos h1]
        rw [h2, hAcc]
        rw [rlFilter_append, rlFilter_append, rlFilter_append, rlFilter_append,
          rlFilter_comp hta, List.append_assoc]
        rw [h2]
      · have h2 : (rlStep L l t).2 = rlFilter t l := by
          simp only [rlStep, if_neg hacc]
        have h1 : (rlStep L l t).1 = false := by
          simp only [rlStep, if_neg hacc]
        have hAcc : rlAccepted L l (t :: ts) =
            rlAccepted L (rlStep L l t).2 ts := by
          show (if (rlStep L l t).1 = true then [t] else []) ++ _ = _
          rw [h1]
          simp
        rw [h2, hAcc]
        rw [rlFilter_append, rlFilter_append, rlFilter_comp hta]
        rw [h2]

theorem inWindow_implies_recent {tEnd a x : Nat}
    (hwa : inWindow tEnd a = true) (hx : inWindow tEnd x = true) :
    (decide ((x : Int) > (a : Int) - 60000)) = true := by
  unfold inWindow at hwa hx
  simp only [Bool.and_eq_true, decide_eq_true_eq] at hwa hx
  simp only [decide_eq_true_eq]
  have h1 : (a : Int) ≤ (tEnd : Int) := by exact_mod_cast hwa.2
  have h2 : (x : Int) > (tEnd : Int) - 60000 := hx.1
  omega

theorem rlAccepted_window_bound (L : Nat) :
    ∀ ts : List Nat, ts.Pairwise (· ≤ ·) →
      ∀ tEnd, ((rlAccepted L [] ts).filter (inWindow tEnd)).length ≤ L := by
  intro ts
  induction ts using List.reverseRecOn with
  | nil =>
      intro _ tEnd
      simp [rlAccepted]
  | append_singleton init a ih =>
      intro hsort tEnd
      have hsplit := List.pairwise_append.mp hsort
      have hsortInit : init.Pairwise (· ≤ ·) := hsplit.1
      have hleInit : ∀ x ∈ init, x ≤ a := fun x hx => hsplit.2.2 x hx a (by simp)
      rw [rlAccepted_append, List.filter_append, List.length_append]
      by_cases hfl : (rlStep L (rlRunState L [] init) a).1 = true
      · rw [if_pos hfl]
        by_cases hwin : inWindow tEnd a = true
        · have hone : (List.filter (inWindow tEnd) [a]).length = 1 := by
            simp [hwin]
          rw [hone]
          have hlt : (rlFilter a (rlRunState L [] init)).length < L := by
            by_cases hc : (rlFilter a (rlRunState L [] init)).length < L
            · exact hc
            · have hfalse : (rlStep L (rlRunState L [] init) a).1 = false := by
                simp only [rlStep, if_neg hc]
              rw [hfalse] at hfl
              simp at hfl
          rw [rlRunState_eq_filter L init [] a hsortInit hleInit] at hlt
          simp only [List.nil_append] at hlt
          have hmono : ((rlAccepted L [] init).filter (inWindow tEnd)).length ≤
              (rlFilter a (rlAccepted L [] init)).length := by
            apply filter_length_mono
            intro x hx
            exact inWindow_implies_recent hwin hx
          omega
        · have hzero : (List.filter (inWindow tEnd) [a]).length = 0 := by
            simp [hwin]
          rw [hzero]
          simpa using ih hsortInit tEnd
      · rw [if_neg hfl]
        simp only [List.filter_nil, List.length_nil, Nat.add_zero]
        exact ih hsortInit tEnd

theorem checkRateLimit_master (st : RateStore) (c k : String) (now : Nat)
    (hc : c ≠ "") (hk : k ≠ "") :
    (checkRateLimit st c k none now).1.allowed =
        (rlStep (defaultLimit k) ((lookupRate st (rateKey c k)).getD []) now).1 ∧
    (checkRateLimit st c k none now).1.resetAt =
        some (match rlFilter now ((lookupRate st (rateKey c k)).getD []) with
              | [] => now + 60000
              | t :: _ => t + 60000) ∧
    lookupRate (checkRateLimit st c k none now).2 (rateKey c k) =
        some (rlStep (defaultLimit k) ((lookupRate st (rateKey c k)).getD []) now).2 := by
  have hL := defaultLimit_pos k
  cases hlk : lookupRate st (rateKey c k) with
  | none =>
      have hclean : cleanupOldEntries st c k now = st := by
        simp [cleanupOldEntries, hlk]
      have hres : checkRateLimit st c k none now =
          ({ allowed := true, remaining := defaultLimit k
             resetAt := some (now + 60000), current := 1, limit := defaultLimit k },
           setEntry st (rateKey c k) [now]) := by
        simp only [checkRateLimit]
        rw [if_neg (by simp [hc, hk])]
        rw [hclean, hlk]
        simp [rlFilter, hL]
      rw [hres]
      refine ⟨?_, ?_, ?_⟩
      · simp [rlStep, rlFilter, hL]
      · simp [rlFilter]
      · rw [lookupRate_setEntry_self]
        simp [rlStep, rlFilter, hL]
  | some es =>
      by_cases hfe : rlFilter now es = []
      · have hclean : cleanupOldEntries st c k now =
            st.filter (fun e => e.1 != rateKey c k) := by
          simp [cleanupOldEntries, hlk, hfe]
        have hres : checkRateLimit st c k none now =
            ({ allowed := true, remaining := defaultLimit k
               resetAt := some (now + 60000), current := 1, limit := defaultLimit k },
             setEntry (st.filter (fun e => e.1 != rateKey c k)) (rateKey c k) [now]) := by
          simp only [checkRateLimit]
          rw [if_neg (by simp [hc, hk])]
          rw [hclean, lookupRate_erase_self]
          simp [rlFilter, hL]
        rw [hres]
        refine ⟨?_, ?_, ?_⟩
        · simp [rlStep, hfe, hL]
        · simp [hfe]
        · rw [lookupRate_setEntry_self]
          simp [rlStep, hfe, hL]
      · have hclean : cleanupOldEntries st c k now =
            setEntry st (rateKey c k) (rlFilter now es) := by
          simp [cleanupOldEntries, hlk, hfe]
        have hidem : rlFilter now (rlFilter now es) = rlFilter now es :=
          rlFilter_idem now es
        by_cases halw : (rlFilter now es).length < defaultLimit k
        · have hres : checkRateLimit st c k none now =
              ({ allowed := true
                 remaining := defaultLimit k - (rlFilter now es).length
                 resetAt := some (match rlFilter now es with
                   | [] => now + 60000
                   | t :: _ => t + 60000)
                 current := (rlFilter now es).length + 1, limit := defaultLimit k },
               setEntry (setEntry st (rateKey c k) (rlFilter now es)) (rateKey c k)
                 (rlFilter now es ++ [now])) := by
            simp only [checkRateLimit]
            rw [if_neg (by simp [hc, hk])]
            rw [hclean, lookupRate_setEntry_self]
            simp only [Option.getD_some, hidem]
            rw [if_pos halw]
          rw [hres]
          refine ⟨?_, ?_, ?_⟩
          · simp [rlStep, halw]
          · rfl
          · rw [lookupRate_setEntry_self]
            simp [rlStep, halw]
        · have hres : checkRateLimit st c k none now =
              ({ allowed := false
                 remaining := defaultLimit k - (rlFilter now es).length
                 resetAt := some (match rlFilter now es with
                   | [] => now + 60000
                   | t :: _ => t + 60000)
                 current := (rlFilter now es).length, limit := defaultLimit k },
               setEntry st (rateKey c k) (rlFilter now es)) := by
            simp only [checkRateLimit]
            rw [if_neg (by simp [hc, hk])]
            rw [hclean, lookupRate_setEntry_self]
            simp only [Option.getD_some, hidem]
            rw [if_neg halw]
          rw [hres]
          refine ⟨?_, ?_, ?_⟩
          · simp [rlStep, halw]
          · rfl
          · rw [lookupRate_setEntry_self]
            simp [rlStep, halw]

theorem runRateTrace_flags (c k : String) (hc : c ≠ "") (hk : k ≠ "") :
    ∀ (ts : List Nat) (st : RateStore),
      (runRateTrace st c k ts).1 =
        rlFlags (defaultLimit k) ((lookupRate st (rateKey c k)).getD []) ts := by
  intro ts
  induction ts with
  | nil => intro st; rfl
  | cons t ts ih =>
      intro st
      show (checkRateLimit st c k none t).1.allowed ::
          (runRateTrace (checkRateLimit st c k none t).2 c k ts).1 = _
      obtain ⟨m1, _, m3⟩ := checkRateLimit_master st c k t hc hk
      rw [m1, ih (checkRateLimit st c k none t).2, m3]
      rfl

theorem acceptedTimes_rlFlags (L : Nat) :
    ∀ (ts : List Nat) (l : List Nat),
      acceptedTimes ts (rlFlags L l ts) = rlAccepted L l ts := by
  intro ts
  induction ts with
  | nil => intro l; rfl
  | cons t ts ih =>
      intro l
      show acceptedTimes (t :: ts) ((rlStep L l t).1 :: rlFlags L (rlStep L l t).2 ts) = _
      unfold acceptedTimes
      rw [List.zip_cons_cons, List.filter_cons]
      by_cases hf : (rlStep L l t).1 = true
      · rw [if_pos (by simpa using hf)]
        rw [List.map_cons]
        show t :: acceptedTimes ts (rlFlags L (rlStep L l t).2 ts) = _
        rw [ih]
        show _ = (if (rlStep L l t).1 = true then [t] else []) ++ _
        rw [if_pos hf]
        rfl
      · rw [if_neg (by simpa using hf)]
        show acceptedTimes ts (rlFlags L (rlStep L l t).2 ts) = _
        rw [ih]
        show _ = (if (rlStep L l t).1 = true then [t] else []) ++ _
        rw [if_neg hf]
        rfl

theorem rlStep_snd_eq (L : Nat) (l : List Nat) (now : Nat) :
    (rlStep L l now).2 =
      if (rlFilter now l).length < L then rlFilter now l ++ [now]
      else rlFilter now l := by
  by_cases h : (rlFilter now l).length < L
  · simp only [rlStep, if_pos h]
  · simp only [rlStep, if_neg h]

theorem rlStep_fst_iff (L : Nat) (l : List Nat) (now : Nat) :
    (rlStep L l now).1 = true ↔ (rlFilter now l).length < L := by
  by_cases h : (rlFilter now l).length < L
  · simp only [rlStep, if_pos h]
    simpa using h
  · simp only [rlStep, if_neg h]
    simpa using h

/-- C5: `checkRateLimit` prunes the key's timestamps to the last 60 s,
allows iff the retained count is strictly below the kind's ceiling
(offer 30, answer 30, ice-candidate 60, crew-sign-on 10,
crew-sign-off 10, anything else 60), appends `now` exactly when
allowed; the returned `resetAt` is the first retained timestamp + 60 s
(the oldest, whenever the stored array is sorted) or `now + 60 s` when
nothing is retained; and along any trace of calls at nondecreasing
times from an empty counter, the number of accepted events of one kind
inside any 60 s window never exceeds the ceiling. -/
theorem checkRateLimit_spec :
    (defaultLimit "offer" = 30 ∧ defaultLimit "answer" = 30 ∧
     defaultLimit "ice-candidate" = 60 ∧ defaultLimit "crew-sign-on" = 10 ∧
     defaultLimit "crew-sign-off" = 10 ∧
     (∀ k : String, k ≠ "offer" → k ≠ "answer" → k ≠ "ice-candidate" →
        k ≠ "crew-sign-on" → k ≠ "crew-sign-off" → defaultLimit k = 60))
    ∧ (∀ (st : RateStore) (c k : String) (now : Nat), c ≠ "" → k ≠ "" →
        (((checkRateLimit st c k none now).1.allowed = true) ↔
          (rlFilter now ((lookupRate st (rateKey c k)).getD [])).length <
            defaultLimit k)
        ∧ lookupRate (checkRateLimit st c k none now).2 (rateKey c k) =
            some (if (rlFilter now ((lookupRate st (rateKey c k)).getD [])).length <
                      defaultLimit k
                  then rlFilter now ((lookupRate st (rateKey c k)).getD []) ++ [now]
                  else rlFilter now ((lookupRate st (rateKey c k)).getD [])))
    ∧ (∀ (st : RateStore) (c k : String) (now : Nat), c ≠ "" → k ≠ "" →
        (checkRateLimit st c k none now).1.resetAt =
          some (match rlFilter now ((lookupRate st (rateKey c k)).getD []) with
                | [] => now + 60000
                | t :: _ => t + 60000)
        ∧ (∀ (t0 : Nat) (rest : List Nat),
            rlFilter now ((lookupRate st (rateKey c k)).getD []) = t0 :: rest →
            ((lookupRate st (rateKey c k)).getD []).Pairwise (· ≤ ·) →
            (checkRateLimit st c k none now).1.resetAt = some (t0 + 60000) ∧
            ∀ x ∈ rlFilter now ((lookupRate st (rateKey c k)).getD []), t0 ≤ x))
    ∧ (∀ (st : RateStore) (c k : String) (ts : List Nat), c ≠ "" → k ≠ "" →
        lookupRate st (rateKey c k) = none →
        ts.Pairwise (· ≤ ·) →
        ∀ tEnd, ((acceptedTimes ts (runRateTrace st c k ts).1).filter
            (inWindow tEnd)).length ≤ defaultLimit k) := by
  refine ⟨⟨rfl, rfl, rfl, rfl, rfl, ?_⟩, ?_, ?_, ?_⟩
  · intro k h1 h2 h3 h4 h5
    unfold defaultLimit
    rw [if_neg h4, if_neg h5, if_neg h1, if_neg h2, if_neg h3]
  · intro st c k now hc hk
    obtain ⟨m1, _, m3⟩ := checkRateLimit_master st c k now hc hk
    constructor
    · rw [m1]
      exact rlStep_fst_iff _ _ _
    · rw [m3, rlStep_snd_eq]
  · intro st c k now hc hk
    obtain ⟨_, m2, _⟩ := checkRateLimit_master st c k now hc hk
    refine ⟨m2, ?_⟩
    intro t0 rest hret hsorted
    have hsortedRet : (rlFilter now ((lookupRate st (rateKey c k)).getD [])).Pairwise
        (· ≤ ·) :=
      hsorted.sublist (List.filter_sublist _)
    rw [hret] at hsortedRet ⊢
    refine ⟨?_, ?_⟩
    · rw [m2, hret]
    · intro x hx
      rcases List.mem_cons.mp hx with h | h
      · exact le_of_eq h.symm
      · exact List.rel_of_pairwise_cons hsortedRet h
  · intro st c k ts hc hk hlk hsort tEnd
    rw [runRateTrace_flags c k hc hk ts st, hlk]
    rw [show (Option.getD (none : Option (List Nat)) []) = [] from rfl]
    rw [acceptedTimes_rlFlags]
    exact rlAccepted_window_bound (defaultLimit k) ts hsort tEnd

/-- Witness for C5: concrete instantiation - from the empty store,
`crew-sign-on` calls for client `P1` at times 5 and 10 are both
allowed (count below the ceiling 10), the first call's `resetAt` is
`5 + 60000`, the stored array after the first call is `[5]`, and the
window bound holds for the two-call trace. -/
theorem checkRateLimit_spec_witness :
    ((checkRateLimit [] "P1" "crew-sign-on" none 5).1.allowed = true) ∧
    lookupRate (checkRateLimit [] "P1" "crew-sign-on" none 5).2
      (rateKey "P1" "crew-sign-on") = some [5] ∧
    (((acceptedTimes [5, 10]
        (runRateTrace [] "P1" "crew-sign-on" [5, 10]).1).filter
        (inWindow 10)).length ≤ defaultLimit "crew-sign-on") ∧
    defaultLimit "railway-other-kind" = 60 := by
  refine ⟨?_, ?_, ?_, ?_⟩
  · exact (checkRateLimit_spec.2.1 [] "P1" "crew-sign-on" 5 (by decide)
      (by decide)).1.mpr (by decide)
  · have h := (checkRateLimit_spec.2.1 [] "P1" "crew-sign-on" 5 (by decide)
      (by decide)).2
    rw [h]
    rfl
  · exact checkRateLimit_spec.2.2.2 [] "P1" "crew-sign-on" [5, 10] (by decide)
      (by decide) rfl (by decide) 10
  · exact checkRateLimit_spec.1.2.2.2.2.2 "railway-other-kind" (by decide)
      (by decide) (by decide) (by decide) (by decide)

end RailwayMonitor
